import Mathlib

/-!
Shallow embedding of the IntoStellar Soroban contracts:

* `FusionPlusEscrow` — src/blockend/stellar/contracts/fusion_plus_escrow/src/lib.rs
* `StellarEscrowFactory` — src/blockend/stellar/contracts/stellar_escrow_factory/src/lib.rs
* `StellarLimitOrderProtocol` — src/blockend/stellar/contracts/stellar_limit_order_protocol/src/lib.rs

Modelling conventions:

* `Address` and `BytesN<32>` values are opaque identifiers; we model both as `Nat`.
* `i128` amounts are modelled as `Int`; `u32` delays and `u64` timestamps as `Nat`
  (no arithmetic in the embedded code can reach the `u64` bound for realistic
  ledger timestamps; `u128` arithmetic in the limit-order protocol is reduced
  modulo `2 ^ 128` where overflow could occur).
* Soroban host facilities consumed by the contracts (`ledger().timestamp()`,
  `current_contract_address()`, `require_auth()`, `crypto().keccak256`,
  `deployer()...deploy(..)`, `ed25519_verify`) are injected through an
  environment record.  `require_auth` is an authorization oracle: when the
  address did not authorize the invocation the host ABORTS the call (it does
  not return a contract error); we model that abort as `Outcome.trap (.auth a)`.
  Similarly a `.unwrap()` panic and host-side `ed25519_verify` failure and a
  division by zero are modelled as distinct trap outcomes.
* Contract storage is a record of `Option` fields (a key is either present or
  absent), and every public function is a pure function from the environment,
  the storage and its arguments to an outcome, the post-storage, and the list
  of externally visible effects (token transfers, deployments, published
  events) in the order the source performs them.
-/

/-- Stellar addresses, modelled as opaque identifiers. -/
abbrev Addr := Nat

/-- 32-byte values (hashes, secrets, wasm hashes), modelled as opaque identifiers. -/
abbrev B32 := Nat

/-- Host-level aborts that are not contract `Error` values: a failed
`require_auth`, a panicking `.unwrap()`, a failed host `ed25519_verify`,
and an integer division by zero. -/
inductive Trap where
  | auth (a : Addr)
  | unwrapPanic
  | badSignature
  | divByZero
deriving DecidableEq, Repr

/-- Result of invoking a contract function: the Rust `Result<α, ε>` plus the
possibility of a host-level trap. -/
inductive Outcome (ε : Type) (α : Type) where
  | ok (a : α)
  | err (e : ε)
  | trap (t : Trap)
deriving DecidableEq, Repr

/-- Whether an outcome is a success. -/
def Outcome.isOk {ε α : Type} : Outcome ε α → Bool
  | .ok _ => true
  | _ => false

/-- Association-list lookup for storage maps keyed by 32-byte values. -/
def lookupEntry {α : Type} : List (B32 × α) → B32 → Option α
  | [], _ => none
  | (k, v) :: rest, key => if k = key then some v else lookupEntry rest key

/-- Association-list update (`Map::set`) for storage maps keyed by 32-byte values. -/
def setEntry {α : Type} : List (B32 × α) → B32 → α → List (B32 × α)
  | [], key, v => [(key, v)]
  | (k, v0) :: rest, key, v =>
      if k = key then (key, v) :: rest else (k, v0) :: setEntry rest key v

namespace FusionPlusEscrow

/-- `Timelocks` struct of fusion_plus_escrow (u32 delays plus the u64
`deployed_at` ledger timestamp). -/
structure Timelocks where
  finality : Nat
  src_withdrawal : Nat
  src_cancellation : Nat
  dst_withdrawal : Nat
  dst_cancellation : Nat
  deployed_at : Nat
deriving DecidableEq, Repr

/-- `TimelockParams` struct: the five configured delays passed to `initialize`. -/
structure TimelockParams where
  finality : Nat
  src_withdrawal : Nat
  src_cancellation : Nat
  dst_withdrawal : Nat
  dst_cancellation : Nat
deriving DecidableEq, Repr

/-- `Immutables` struct: parameters set once at initialization. -/
structure Immutables where
  order_hash : B32
  hash_lock : B32
  maker : Addr
  taker : Addr
  token : Addr
  amount : Int
  safety_deposit : Int
  timelocks : Timelocks
deriving DecidableEq, Repr

/-- `InitParams` struct passed to `initialize`. -/
structure InitParams where
  order_hash : B32
  hash_lock : B32
  maker : Addr
  taker : Addr
  token : Addr
  amount : Int
  safety_deposit : Int
  timelocks : TimelockParams
deriving DecidableEq, Repr

/-- `Error` enum of fusion_plus_escrow. -/
inductive Error where
  | AlreadyInitialized
  | NotInitialized
  | InvalidSecret
  | InvalidTime
  | Unauthorized
  | InvalidParams
  | AlreadyWithdrawn
  | AlreadyCancelled
  | SafetyDepositFailed
  | TokenTransferFailed
deriving DecidableEq, Repr

/-- `EscrowCreatedEvent` published by `initialize`. -/
structure EscrowCreatedEvent where
  order_hash : B32
  hash_lock : B32
  maker : Addr
  taker : Addr
  token : Addr
  amount : Int
  safety_deposit : Int
  finality_time : Nat
  withdrawal_time : Nat
  cancellation_time : Nat
deriving DecidableEq, Repr

/-- `WithdrawalEvent` published by `withdraw` and `public_withdraw`. -/
structure WithdrawalEvent where
  hash_lock : B32
  secret : B32
  withdrawn_by : Addr
  is_public_withdrawal : Bool
deriving DecidableEq, Repr

/-- `EscrowCancelledEvent` published by `cancel`. -/
structure EscrowCancelledEvent where
  hash_lock : B32
  cancelled_by : Addr
  refund_to : Addr
deriving DecidableEq, Repr

/-- Externally visible effects of one escrow call, in source order.
`tokenTransfer tok a b n` is a `token::Client::new(env, tok).transfer(a, b, n)`
invocation.  `nativeTransfer` is the transfer that `transfer_native` would
perform; the source body of `transfer_native` is a placeholder that returns
`Ok(())` without performing any transfer, so the embedded operations never
emit this effect — the constructor exists so that absence of the native
(safety-deposit) transfer is expressible. -/
inductive Effect where
  | tokenTransfer (token sender receiver : Addr) (amount : Int)
  | nativeTransfer (receiver : Addr) (amount : Int)
  | escrowCreated (e : EscrowCreatedEvent)
  | withdrawal (e : WithdrawalEvent)
  | escrowCancelled (e : EscrowCancelledEvent)
deriving DecidableEq, Repr

/-- Instance storage of one escrow contract: each `DataKey` is present or absent. -/
structure EscrowState where
  immutables : Option Immutables
  withdrawn : Option Bool
  cancelled : Option Bool
  revealed_secret : Option B32
deriving DecidableEq, Repr

/-- Storage of a freshly deployed, never touched escrow contract. -/
def emptyState : EscrowState := ⟨none, none, none, none⟩

/-- Ledger facilities consumed by the escrow contract. `auths a = true` means
address `a` authorized the current invocation (`require_auth` succeeds). -/
structure Env where
  timestamp : Nat
  contract_address : Addr
  auths : Addr → Bool
  keccak : B32 → B32

/-- Result of one state-changing escrow call. -/
structure OpResult where
  out : Outcome Error Unit
  state : EscrowState
  effects : List Effect
deriving DecidableEq, Repr

/-- `is_withdrawn_internal`: reads the `Withdrawn` key, defaulting to `false`
 (the source always returns `Ok`, so we model the bare boolean). -/
def is_withdrawn_internal (st : EscrowState) : Bool := st.withdrawn.getD false

/-- `is_cancelled_internal`: reads the `Cancelled` key, defaulting to `false`. -/
def is_cancelled_internal (st : EscrowState) : Bool := st.cancelled.getD false

/-- `is_native_token`: the source always returns `false`
("For safety, assume all tokens are token contracts for now"). -/
def is_native_token (_token : Addr) : Bool := false

/-- `FusionPlusEscrow::initialize`. -/
def initEscrow (env : Env) (st : EscrowState) (params : InitParams) : OpResult :=
  if st.immutables.isSome then ⟨.err .AlreadyInitialized, st, []⟩
  else if params.amount ≤ 0 ∨ params.safety_deposit ≤ 0 then ⟨.err .InvalidParams, st, []⟩
  else if params.timelocks.src_withdrawal ≤ params.timelocks.finality then
    ⟨.err .InvalidParams, st, []⟩
  else if params.timelocks.src_cancellation ≤ params.timelocks.src_withdrawal then
    ⟨.err .InvalidParams, st, []⟩
  else
    let deployed_at := env.timestamp
    let timelocks : Timelocks :=
      ⟨params.timelocks.finality, params.timelocks.src_withdrawal,
        params.timelocks.src_cancellation, params.timelocks.dst_withdrawal,
        params.timelocks.dst_cancellation, deployed_at⟩
    let immutables : Immutables :=
      ⟨params.order_hash, params.hash_lock, params.maker, params.taker, params.token,
        params.amount, params.safety_deposit, timelocks⟩
    ⟨.ok (),
      { st with immutables := some immutables, withdrawn := some false, cancelled := some false },
      [.escrowCreated
        ⟨params.order_hash, params.hash_lock, params.maker, params.taker, params.token,
          params.amount, params.safety_deposit,
          deployed_at + params.timelocks.finality,
          deployed_at + params.timelocks.src_withdrawal,
          deployed_at + params.timelocks.src_cancellation⟩]⟩

/-- `FusionPlusEscrow::deposit`. -/
def deposit (env : Env) (st : EscrowState) : OpResult :=
  match st.immutables with
  | none => ⟨.err .NotInitialized, st, []⟩
  | some imm =>
    if env.auths imm.maker then
      if is_withdrawn_internal st || is_cancelled_internal st then ⟨.err .InvalidTime, st, []⟩
      else if is_native_token imm.token then ⟨.ok (), st, []⟩
      else ⟨.ok (), st, [.tokenTransfer imm.token imm.maker env.contract_address imm.amount]⟩
    else ⟨.trap (.auth imm.maker), st, []⟩

/-- `FusionPlusEscrow::withdraw` (private withdrawal by the taker with the secret). -/
def withdraw (env : Env) (st : EscrowState) (secret : B32) : OpResult :=
  match st.immutables with
  | none => ⟨.err .NotInitialized, st, []⟩
  | some imm =>
    if env.auths imm.taker then
      if is_withdrawn_internal st then ⟨.err .AlreadyWithdrawn, st, []⟩
      else if is_cancelled_internal st then ⟨.err .AlreadyCancelled, st, []⟩
      else if env.keccak secret ≠ imm.hash_lock then ⟨.err .InvalidSecret, st, []⟩
      else
        let current_time := env.timestamp
        let withdrawal_time := imm.timelocks.deployed_at + imm.timelocks.src_withdrawal
        let cancellation_time := imm.timelocks.deployed_at + imm.timelocks.src_cancellation
        if current_time < withdrawal_time then ⟨.err .InvalidTime, st, []⟩
        else if cancellation_time ≤ current_time then ⟨.err .InvalidTime, st, []⟩
        else
          ⟨.ok (),
            { st with withdrawn := some true, revealed_secret := some secret },
            [.tokenTransfer imm.token env.contract_address imm.maker imm.amount,
             .withdrawal ⟨imm.hash_lock, secret, imm.taker, false⟩]⟩
    else ⟨.trap (.auth imm.taker), st, []⟩

/-- `FusionPlusEscrow::public_withdraw` (withdrawal by any caller; the
public window starts a hard-coded 3600-second grace period after the
private withdrawal time). -/
def public_withdraw (env : Env) (st : EscrowState) (secret : B32) (caller : Addr) : OpResult :=
  match st.immutables with
  | none => ⟨.err .NotInitialized, st, []⟩
  | some imm =>
    if env.auths caller then
      if is_withdrawn_internal st then ⟨.err .AlreadyWithdrawn, st, []⟩
      else if is_cancelled_internal st then ⟨.err .AlreadyCancelled, st, []⟩
      else if env.keccak secret ≠ imm.hash_lock then ⟨.err .InvalidSecret, st, []⟩
      else
        let current_time := env.timestamp
        let cancellation_time := imm.timelocks.deployed_at + imm.timelocks.src_cancellation
        let public_withdrawal_time :=
          imm.timelocks.deployed_at + imm.timelocks.src_withdrawal + 3600
        if current_time < public_withdrawal_time then ⟨.err .InvalidTime, st, []⟩
        else if cancellation_time ≤ current_time then ⟨.err .InvalidTime, st, []⟩
        else
          ⟨.ok (),
            { st with withdrawn := some true, revealed_secret := some secret },
            [.tokenTransfer imm.token env.contract_address imm.maker imm.amount,
             .withdrawal ⟨imm.hash_lock, secret, caller, true⟩]⟩
    else ⟨.trap (.auth caller), st, []⟩

/-- `FusionPlusEscrow::cancel` (by maker or taker, at or after the cancellation time). -/
def cancel (env : Env) (st : EscrowState) (caller : Addr) : OpResult :=
  match st.immutables with
  | none => ⟨.err .NotInitialized, st, []⟩
  | some imm =>
    if env.auths caller then
      if is_withdrawn_internal st then ⟨.err .AlreadyWithdrawn, st, []⟩
      else if is_cancelled_internal st then ⟨.err .AlreadyCancelled, st, []⟩
      else
        let current_time := env.timestamp
        let cancellation_time := imm.timelocks.deployed_at + imm.timelocks.src_cancellation
        if current_time < cancellation_time then ⟨.err .InvalidTime, st, []⟩
        else if caller ≠ imm.maker ∧ caller ≠ imm.taker then ⟨.err .Unauthorized, st, []⟩
        else
          ⟨.ok (),
            { st with cancelled := some true },
            [.tokenTransfer imm.token env.contract_address imm.maker imm.amount,
             .escrowCancelled ⟨imm.hash_lock, caller, imm.maker⟩]⟩
    else ⟨.trap (.auth caller), st, []⟩

/-- `FusionPlusEscrow::get_immutables`. -/
def get_immutables (st : EscrowState) : Outcome Error Immutables :=
  match st.immutables with
  | some i => .ok i
  | none => .err .NotInitialized

/-- `FusionPlusEscrow::is_withdrawn_status`. -/
def is_withdrawn_status (st : EscrowState) : Outcome Error Bool :=
  .ok (is_withdrawn_internal st)

/-- `FusionPlusEscrow::is_cancelled_status`. -/
def is_cancelled_status (st : EscrowState) : Outcome Error Bool :=
  .ok (is_cancelled_internal st)

/-- `FusionPlusEscrow::get_revealed_secret`.  Note: the source fails with
`Error::InvalidTime` (not an InvalidState-kind error) when the escrow has
not been withdrawn, and also when the secret key is absent. -/
def get_revealed_secret (st : EscrowState) : Outcome Error B32 :=
  if is_withdrawn_internal st then
    match st.revealed_secret with
    | some s => .ok s
    | none => .err .InvalidTime
  else .err .InvalidTime

/-- One invocation of any state-changing escrow entry point, with arbitrary
environment and arguments, taking the storage from `st` to `st2`. -/
inductive EStep : EscrowState → EscrowState → Prop where
  | initStep (st : EscrowState) (env : Env) (p : InitParams) :
      EStep st (initEscrow env st p).state
  | depositStep (st : EscrowState) (env : Env) :
      EStep st (deposit env st).state
  | withdrawStep (st : EscrowState) (env : Env) (s : B32) :
      EStep st (withdraw env st s).state
  | publicWithdrawStep (st : EscrowState) (env : Env) (s : B32) (c : Addr) :
      EStep st (public_withdraw env st s c).state
  | cancelStep (st : EscrowState) (env : Env) (c : Addr) :
      EStep st (cancel env st c).state

/-- Storage states reachable from a freshly deployed escrow contract by any
sequence of invocations. -/
inductive Reachable : EscrowState → Prop where
  | empty : Reachable emptyState
  | step (st st2 : EscrowState) : Reachable st → EStep st st2 → Reachable st2

end FusionPlusEscrow

namespace StellarEscrowFactory

/-- `FactoryTimelockParams`: the eight configured delays for a 7-stage schedule. -/
structure FactoryTimelockParams where
  finality_delay : Nat
  src_withdrawal_delay : Nat
  src_public_withdrawal_delay : Nat
  src_cancellation_delay : Nat
  src_public_cancellation_delay : Nat
  dst_withdrawal_delay : Nat
  dst_public_withdrawal_delay : Nat
  dst_cancellation_delay : Nat
deriving DecidableEq, Repr

/-- `Error` enum of stellar_escrow_factory. -/
inductive Error where
  | AlreadyInitialized
  | NotInitialized
  | EscrowExists
  | EscrowNotFound
  | Unauthorized
  | InvalidParams
  | DeploymentFailed
  | InsufficientEscrowBalance
  | InvalidCreationTime
  | InvalidPartialFill
  | InvalidSecretsAmount
  | InvalidExtraData
deriving DecidableEq, Repr

/-- `TimelockInfo` carried by the creation events. -/
structure TimelockInfo where
  finality : Nat
  src_withdrawal : Nat
  src_public_withdrawal : Nat
  src_cancellation : Nat
  src_public_cancellation : Nat
  dst_withdrawal : Nat
  dst_public_withdrawal : Nat
  dst_cancellation : Nat
  deployed_at : Nat
deriving DecidableEq, Repr

/-- `SrcEscrowCreatedEvent` published by `create_src_escrow`. -/
structure SrcEscrowCreatedEvent where
  order_hash : B32
  hash_lock : B32
  escrow_address : Addr
  maker : Addr
  taker : Addr
  token : Addr
  amount : Int
  safety_deposit : Int
  timelocks : TimelockInfo
deriving DecidableEq, Repr

/-- `DstEscrowCreatedEvent` published by `create_dst_escrow`. -/
structure DstEscrowCreatedEvent where
  order_hash : B32
  hash_lock : B32
  escrow_address : Addr
  maker : Addr
  taker : Addr
  token : Addr
  amount : Int
  safety_deposit : Int
  timelocks : TimelockInfo
deriving DecidableEq, Repr

/-- Externally visible effects of one factory call, in source order.
`deployContract w s a` is the `deployer().with_current_contract(s).deploy(w)`
call that created address `a`.  `initializeEscrow a p` would be a
cross-contract invocation of `FusionPlusEscrow::initialize` on the deployed
instance `a`; the factory source never performs such an invocation (an
explicit TODO defers it to the caller), so no embedded operation emits this
effect — the constructor exists so that its absence is expressible. -/
inductive Effect where
  | deployContract (wasm_hash salt : B32) (address : Addr)
  | initializeEscrow (address : Addr) (p : FusionPlusEscrow.InitParams)
  | srcEscrowCreated (e : SrcEscrowCreatedEvent)
  | dstEscrowCreated (e : DstEscrowCreatedEvent)
deriving DecidableEq, Repr

/-- Factory storage: `Initialized` presence flag, the instance-storage
configuration values, and the persistent `EscrowMapping` registry. -/
structure FactoryState where
  initialized : Bool
  escrow_wasm_hash : Option B32
  admin : Option Addr
  limit_order_protocol : Option Addr
  escrow_mapping : List (B32 × Addr)
deriving DecidableEq, Repr

/-- Ledger facilities consumed by the factory.  `deploy_address w s` is the
deterministic address produced by
`deployer().with_current_contract(s).deploy(w)`. -/
structure FEnv where
  timestamp : Nat
  contract_address : Addr
  auths : Addr → Bool
  deploy_address : B32 → B32 → Addr

/-- Result of one factory call returning `α`. -/
structure FRes (α : Type) where
  out : Outcome Error α
  state : FactoryState
  effects : List Effect

/-- `StellarEscrowFactory::initialize`. -/
def initFactory (st : FactoryState) (escrow_wasm_hash : B32) (admin : Addr)
    (limit_order_protocol : Addr) : FRes Unit :=
  if st.initialized then ⟨.err .AlreadyInitialized, st, []⟩
  else
    ⟨.ok (),
      { st with
          escrow_wasm_hash := some escrow_wasm_hash,
          admin := some admin,
          limit_order_protocol := some limit_order_protocol,
          initialized := true },
      []⟩

/-- The seven strict-ordering checks shared verbatim by `create_src_escrow`
and `create_dst_escrow` ("Validate 7-stage timelock ordering"), as the
disjunction of the violation conditions in source order. -/
def timelockOrderViolated (tl : FactoryTimelockParams) : Prop :=
  tl.src_withdrawal_delay ≤ tl.finality_delay
  ∨ tl.src_public_withdrawal_delay ≤ tl.src_withdrawal_delay
  ∨ tl.src_cancellation_delay ≤ tl.src_public_withdrawal_delay
  ∨ tl.src_public_cancellation_delay ≤ tl.src_cancellation_delay
  ∨ tl.dst_withdrawal_delay ≤ tl.finality_delay
  ∨ tl.dst_public_withdrawal_delay ≤ tl.dst_withdrawal_delay
  ∨ tl.dst_cancellation_delay ≤ tl.dst_public_withdrawal_delay

instance (tl : FactoryTimelockParams) : Decidable (timelockOrderViolated tl) := by
  unfold timelockOrderViolated; infer_instance

/-- `StellarEscrowFactory::create_src_escrow`. -/
def create_src_escrow (env : FEnv) (st : FactoryState) (order_hash hash_lock : B32)
    (maker taker token : Addr) (amount safety_deposit : Int)
    (timelocks : FactoryTimelockParams) : FRes Addr :=
  if st.initialized = false then ⟨.err .NotInitialized, st, []⟩
  else if (lookupEntry st.escrow_mapping hash_lock).isSome then ⟨.err .EscrowExists, st, []⟩
  else if amount ≤ 0 ∨ safety_deposit ≤ 0 then ⟨.err .InvalidParams, st, []⟩
  else if timelockOrderViolated timelocks then ⟨.err .InvalidParams, st, []⟩
  else
    match st.escrow_wasm_hash with
    | none => ⟨.trap .unwrapPanic, st, []⟩
    | some wasm =>
      let escrow_address := env.deploy_address wasm hash_lock
      ⟨.ok escrow_address,
        { st with escrow_mapping := (hash_lock, escrow_address) :: st.escrow_mapping },
        [.deployContract wasm hash_lock escrow_address,
         .srcEscrowCreated
           ⟨order_hash, hash_lock, escrow_address, maker, taker, token, amount, safety_deposit,
             ⟨timelocks.finality_delay, timelocks.src_withdrawal_delay,
               timelocks.src_public_withdrawal_delay, timelocks.src_cancellation_delay,
               timelocks.src_public_cancellation_delay, timelocks.dst_withdrawal_delay,
               timelocks.dst_public_withdrawal_delay, timelocks.dst_cancellation_delay,
               env.timestamp⟩⟩]⟩

/-- `StellarEscrowFactory::create_dst_escrow` (same checks as the src variant,
with an extra authorized `caller` argument checked right after the
initialization gate). -/
def create_dst_escrow (env : FEnv) (st : FactoryState) (order_hash hash_lock : B32)
    (maker taker token : Addr) (amount safety_deposit : Int)
    (timelocks : FactoryTimelockParams) (caller : Addr) : FRes Addr :=
  if st.initialized = false then ⟨.err .NotInitialized, st, []⟩
  else if env.auths caller then
    if (lookupEntry st.escrow_mapping hash_lock).isSome then ⟨.err .EscrowExists, st, []⟩
    else if amount ≤ 0 ∨ safety_deposit ≤ 0 then ⟨.err .InvalidParams, st, []⟩
    else if timelockOrderViolated timelocks then ⟨.err .InvalidParams, st, []⟩
    else
      match st.escrow_wasm_hash with
      | none => ⟨.trap .unwrapPanic, st, []⟩
      | some wasm =>
        let escrow_address := env.deploy_address wasm hash_lock
        ⟨.ok escrow_address,
          { st with escrow_mapping := (hash_lock, escrow_address) :: st.escrow_mapping },
          [.deployContract wasm hash_lock escrow_address,
           .dstEscrowCreated
             ⟨order_hash, hash_lock, escrow_address, maker, taker, token, amount, safety_deposit,
               ⟨timelocks.finality_delay, timelocks.src_withdrawal_delay,
                 timelocks.src_public_withdrawal_delay, timelocks.src_cancellation_delay,
                 timelocks.src_public_cancellation_delay, timelocks.dst_withdrawal_delay,
                 timelocks.dst_public_withdrawal_delay, timelocks.dst_cancellation_delay,
                 env.timestamp⟩⟩]⟩
  else ⟨.trap (.auth caller), st, []⟩

/-- `StellarEscrowFactory::get_escrow_address`. -/
def get_escrow_address (st : FactoryState) (hash_lock : B32) : Outcome Error Addr :=
  match lookupEntry st.escrow_mapping hash_lock with
  | some a => .ok a
  | none => .err .EscrowNotFound

/-- `StellarEscrowFactory::escrow_exists`. -/
def escrow_exists (st : FactoryState) (hash_lock : B32) : Bool :=
  (lookupEntry st.escrow_mapping hash_lock).isSome

end StellarEscrowFactory

namespace StellarLimitOrderProtocol

/-- `Order` struct of stellar_limit_order_protocol (u128 amounts as `Nat`,
`interactions : Bytes` as a list of byte values). -/
structure Order where
  salt : Nat
  maker_asset : Addr
  taker_asset : Addr
  maker : Addr
  receiver : Addr
  allowed_sender : Addr
  making_amount : Nat
  taking_amount : Nat
  offsets : Nat
  interactions : List Nat
deriving DecidableEq, Repr

/-- `TakerTraits` struct. -/
structure TakerTraits where
  threshold : Nat
  skip_maker_permit : Bool
deriving DecidableEq, Repr

/-- `Error` enum of stellar_limit_order_protocol. -/
inductive Error where
  | TakingAmountExceeded
  | OrderExpired
  | SwapWithZeroAmount
  | BadSignature
  | TransferFailed
  | InvalidArgs
  | ConversionFailed
deriving DecidableEq, Repr

/-- Externally visible effects of one protocol call. -/
inductive Effect where
  | tokenTransfer (token sender receiver : Addr) (amount : Int)
  | orderFilled (order_hash : B32) (remaining : Nat)
deriving DecidableEq, Repr

/-- Instance storage: the `rem_inv` remaining-amount map and the `orders` map. -/
structure LopState where
  remaining_invalidator : List (B32 × Nat)
  orders : List (B32 × Order)
deriving DecidableEq, Repr

/-- Ledger facilities consumed by the protocol.  `hash_order` abstracts the
keccak256-based `hash_order` computation; `ed25519_valid m h s` abstracts the
host `ed25519_verify` of hash `h` and signature `s` against the key derived
from maker address `m` (the host ABORTS the call when it fails, which we
model as `Outcome.trap .badSignature`). -/
structure LEnv where
  contract_address : Addr
  hash_order : Order → B32
  ed25519_valid : Addr → B32 → List Nat → Bool

/-- Result of a `fill_order` call. -/
structure FillRes where
  out : Outcome Error (Nat × Nat × B32)
  state : LopState
  effects : List Effect
deriving DecidableEq, Repr

/-- The u128 modulus. -/
def U128MOD : Nat := 2 ^ 128

/-- `StellarLimitOrderProtocol::validate_order`. -/
def validate_order (order : Order) : Outcome Error Unit :=
  if order.making_amount = 0 ∨ order.taking_amount = 0 then .err .SwapWithZeroAmount
  else .ok ()

/-- `StellarLimitOrderProtocol::verify_signature`: rejects signatures whose
length is not 64 with `BadSignature`; otherwise the host `ed25519_verify`
either succeeds or aborts the call. -/
def verify_signature (env : LEnv) (order : Order) (signature : List Nat) :
    Outcome Error Unit :=
  if signature.length ≠ 64 then .err .BadSignature
  else if env.ed25519_valid order.maker (env.hash_order order) signature then .ok ()
  else .trap .badSignature

/-- `StellarLimitOrderProtocol::get_remaining_amount`: missing entries
default to `u128::MAX`. -/
def get_remaining_amount (st : LopState) (order_hash : B32) : Nat :=
  (lookupEntry st.remaining_invalidator order_hash).getD (U128MOD - 1)

/-- `StellarLimitOrderProtocol::fill_order`.  The division
`(amount * order.making_amount) / order.taking_amount` is u128 arithmetic:
the product is reduced modulo `2 ^ 128` and a zero divisor would abort the
call (Rust panics on integer division by zero), modelled as
`Outcome.trap .divByZero`. -/
def fill_order (env : LEnv) (st : LopState) (order : Order) (signature : List Nat)
    (taker : Addr) (amount : Nat) (_taker_traits : TakerTraits) : FillRes :=
  match validate_order order with
  | .err e => ⟨.err e, st, []⟩
  | .trap t => ⟨.trap t, st, []⟩
  | .ok _ =>
    match verify_signature env order signature with
    | .err e => ⟨.err e, st, []⟩
    | .trap t => ⟨.trap t, st, []⟩
    | .ok _ =>
      let order_hash := env.hash_order order
      let remaining := get_remaining_amount st order_hash
      if remaining < amount then ⟨.err .TakingAmountExceeded, st, []⟩
      else if order.taking_amount = 0 then ⟨.trap .divByZero, st, []⟩
      else
        let making_amount := amount * order.making_amount % U128MOD / order.taking_amount
        let taking_amount := amount
        let st1 : LopState :=
          { st with
              remaining_invalidator :=
                setEntry st.remaining_invalidator order_hash (remaining - amount) }
        let st2 : LopState := { st1 with orders := setEntry st1.orders order_hash order }
        ⟨.ok (making_amount, taking_amount, order_hash),
          st2,
          [.tokenTransfer order.maker_asset order.maker env.contract_address
             (Int.ofNat making_amount),
           .tokenTransfer order.taker_asset taker order.maker (Int.ofNat taking_amount),
           .tokenTransfer order.maker_asset env.contract_address taker
             (Int.ofNat making_amount),
           .orderFilled order_hash (remaining - amount)]⟩

end StellarLimitOrderProtocol

namespace FusionPlusEscrow

/-- Terminal-flag invariant of one escrow instance: the two terminal flags
are never both set, and an escrow whose immutables were never stored has no
flag keys in storage either. -/
def EscrowInv (st : EscrowState) : Prop :=
  ¬(is_withdrawn_internal st = true ∧ is_cancelled_internal st = true)
  ∧ (st.immutables = none → st.withdrawn = none ∧ st.cancelled = none)

end FusionPlusEscrow

namespace StellarEscrowFactory

/-- Whether a factory effect is a cross-contract `initialize` invocation on a
deployed escrow instance. -/
def Effect.isInitCall : Effect → Bool
  | .initializeEscrow _ _ => true
  | _ => false

end StellarEscrowFactory

namespace FusionPlusEscrow

theorem deposit_state (env : Env) (st : EscrowState) : (deposit env st).state = st := by
  unfold deposit
  cases h : st.immutables <;> simp only []
  split_ifs <;> rfl

theorem initEscrow_not_ok_state (env : Env) (st : EscrowState) (p : InitParams)
    (h : (initEscrow env st p).out ≠ .ok ()) : (initEscrow env st p).state = st := by
  unfold initEscrow at h ⊢
  split_ifs at h ⊢ <;> first | rfl | exact absurd rfl h

theorem withdraw_not_ok_state (env : Env) (st : EscrowState) (secret : B32)
    (h : (withdraw env st secret).out ≠ .ok ()) : (withdraw env st secret).state = st := by
  unfold withdraw at h ⊢
  revert h
  cases st.immutables <;> intro h <;> dsimp only at h ⊢
  split_ifs at h ⊢ <;> first | rfl | exact absurd rfl h

theorem public_withdraw_not_ok_state (env : Env) (st : EscrowState) (secret : B32)
    (caller : Addr) (h : (public_withdraw env st secret caller).out ≠ .ok ()) :
    (public_withdraw env st secret caller).state = st := by
  unfold public_withdraw at h ⊢
  revert h
  cases st.immutables <;> intro h <;> dsimp only at h ⊢
  split_ifs at h ⊢ <;> first | rfl | exact absurd rfl h

theorem cancel_not_ok_state (env : Env) (st : EscrowState) (caller : Addr)
    (h : (cancel env st caller).out ≠ .ok ()) : (cancel env st caller).state = st := by
  unfold cancel at h ⊢
  revert h
  cases st.immutables <;> intro h <;> dsimp only at h ⊢
  split_ifs at h ⊢ <;> first | rfl | exact absurd rfl h

theorem withdraw_ok_iff (env : Env) (st : EscrowState) (secret : B32) (imm : Immutables)
    (h : st.immutables = some imm) :
    (withdraw env st secret).out = .ok () ↔
      env.auths imm.taker = true ∧ is_withdrawn_internal st = false
      ∧ is_cancelled_internal st = false ∧ env.keccak secret = imm.hash_lock
      ∧ imm.timelocks.deployed_at + imm.timelocks.src_withdrawal ≤ env.timestamp
      ∧ env.timestamp < imm.timelocks.deployed_at + imm.timelocks.src_cancellation := by
  unfold withdraw
  rw [h]
  dsimp only
  split_ifs <;> simp_all

theorem withdraw_ok_dest (env : Env) (st : EscrowState) (secret : B32) (imm : Immutables)
    (h : st.immutables = some imm) (hok : (withdraw env st secret).out = .ok ()) :
    (withdraw env st secret).state
        = { st with withdrawn := some true, revealed_secret := some secret }
    ∧ (withdraw env st secret).effects
        = [.tokenTransfer imm.token env.contract_address imm.maker imm.amount,
           .withdrawal ⟨imm.hash_lock, secret, imm.taker, false⟩] := by
  unfold withdraw at hok ⊢
  rw [h] at hok ⊢
  dsimp only at hok ⊢
  split_ifs at hok ⊢ <;> simp_all

theorem public_withdraw_ok_iff (env : Env) (st : EscrowState) (secret : B32) (caller : Addr)
    (imm : Immutables) (h : st.immutables = some imm) :
    (public_withdraw env st secret caller).out = .ok () ↔
      env.auths caller = true ∧ is_withdrawn_internal st = false
      ∧ is_cancelled_internal st = false ∧ env.keccak secret = imm.hash_lock
      ∧ imm.timelocks.deployed_at + imm.timelocks.src_withdrawal + 3600 ≤ env.timestamp
      ∧ env.timestamp < imm.timelocks.deployed_at + imm.timelocks.src_cancellation := by
  unfold public_withdraw
  rw [h]
  dsimp only
  split_ifs <;> simp_all

theorem public_withdraw_ok_dest (env : Env) (st : EscrowState) (secret : B32) (caller : Addr)
    (imm : Immutables) (h : st.immutables = some imm)
    (hok : (public_withdraw env st secret caller).out = .ok ()) :
    (public_withdraw env st secret caller).state
        = { st with withdrawn := some true, revealed_secret := some secret }
    ∧ (public_withdraw env st secret caller).effects
        = [.tokenTransfer imm.token env.contract_address imm.maker imm.amount,
           .withdrawal ⟨imm.hash_lock, secret, caller, true⟩] := by
  unfold public_withdraw at hok ⊢
  rw [h] at hok ⊢
  dsimp only at hok ⊢
  split_ifs at hok ⊢ <;> simp_all

theorem cancel_ok_iff (env : Env) (st : EscrowState) (caller : Addr)
    (imm : Immutables) (h : st.immutables = some imm) :
    (cancel env st caller).out = .ok () ↔
      env.auths caller = true ∧ is_withdrawn_internal st = false
      ∧ is_cancelled_internal st = false
      ∧ imm.timelocks.deployed_at + imm.timelocks.src_cancellation ≤ env.timestamp
      ∧ (caller = imm.maker ∨ caller = imm.taker) := by
  unfold cancel
  rw [h]
  dsimp only
  split_ifs <;> simp_all <;> tauto

theorem cancel_ok_dest (env : Env) (st : EscrowState) (caller : Addr)
    (imm : Immutables) (h : st.immutables = some imm)
    (hok : (cancel env st caller).out = .ok ()) :
    (cancel env st caller).state = { st with cancelled := some true }
    ∧ (cancel env st caller).effects
        = [.tokenTransfer imm.token env.contract_address imm.maker imm.amount,
           .escrowCancelled ⟨imm.hash_lock, caller, imm.maker⟩] := by
  unfold cancel at hok ⊢
  rw [h] at hok ⊢
  dsimp only at hok ⊢
  split_ifs at hok ⊢ <;> simp_all

theorem initEscrow_ok_iff (env : Env) (st : EscrowState) (p : InitParams) :
    (initEscrow env st p).out = .ok () ↔
      st.immutables = none ∧ 0 < p.amount ∧ 0 < p.safety_deposit
      ∧ p.timelocks.finality < p.timelocks.src_withdrawal
      ∧ p.timelocks.src_withdrawal < p.timelocks.src_cancellation := by
  unfold initEscrow
  rcases him : st.immutables with _ | imm
  · simp only [him, Option.isSome_none]
    split_ifs <;> simp_all <;> omega
  · simp [him]

theorem initEscrow_ok_dest (env : Env) (st : EscrowState) (p : InitParams)
    (hok : (initEscrow env st p).out = .ok ()) :
    (initEscrow env st p).state =
      { st with
          immutables := some
            ⟨p.order_hash, p.hash_lock, p.maker, p.taker, p.token, p.amount, p.safety_deposit,
              ⟨p.timelocks.finality, p.timelocks.src_withdrawal, p.timelocks.src_cancellation,
                p.timelocks.dst_withdrawal, p.timelocks.dst_cancellation, env.timestamp⟩⟩,
          withdrawn := some false,
          cancelled := some false } := by
  unfold initEscrow at hok ⊢
  split_ifs at hok ⊢ <;> simp_all

theorem withdraw_err_cases (env : Env) (st : EscrowState) (secret : B32)
    (imm : Immutables) (h : st.immutables = some imm) (ha : env.auths imm.taker = true) :
    (is_withdrawn_internal st = true → (withdraw env st secret).out = .err .AlreadyWithdrawn)
    ∧ (is_withdrawn_internal st = false → is_cancelled_internal st = true →
        (withdraw env st secret).out = .err .AlreadyCancelled)
    ∧ (is_withdrawn_internal st = false → is_cancelled_internal st = false →
        env.keccak secret ≠ imm.hash_lock →
        (withdraw env st secret).out = .err .InvalidSecret)
    ∧ (is_withdrawn_internal st = false → is_cancelled_internal st = false →
        env.keccak secret = imm.hash_lock →
        (env.timestamp < imm.timelocks.deployed_at + imm.timelocks.src_withdrawal
          ∨ imm.timelocks.deployed_at + imm.timelocks.src_cancellation ≤ env.timestamp) →
        (withdraw env st secret).out = .err .InvalidTime) := by
  unfold withdraw
  rw [h]
  dsimp only
  split_ifs <;> simp_all <;> omega

theorem withdraw_trap_of_no_auth (env : Env) (st : EscrowState) (secret : B32)
    (imm : Immutables) (h : st.immutables = some imm) (ha : env.auths imm.taker = false) :
    (withdraw env st secret).out = .trap (.auth imm.taker) := by
  unfold withdraw
  rw [h]
  dsimp only
  split_ifs <;> simp_all

theorem public_withdraw_err_cases (env : Env) (st : EscrowState) (secret : B32)
    (caller : Addr) (imm : Immutables) (h : st.immutables = some imm)
    (ha : env.auths caller = true) :
    (is_withdrawn_internal st = true →
        (public_withdraw env st secret caller).out = .err .AlreadyWithdrawn)
    ∧ (is_withdrawn_internal st = false → is_cancelled_internal st = true →
        (public_withdraw env st secret caller).out = .err .AlreadyCancelled)
    ∧ (is_withdrawn_internal st = false → is_cancelled_internal st = false →
        env.keccak secret = imm.hash_lock →
        (env.timestamp < imm.timelocks.deployed_at + imm.timelocks.src_withdrawal + 3600
          ∨ imm.timelocks.deployed_at + imm.timelocks.src_cancellation ≤ env.timestamp) →
        (public_withdraw env st secret caller).out = .err .InvalidTime) := by
  unfold public_withdraw
  rw [h]
  dsimp only
  split_ifs <;> simp_all <;> omega

theorem cancel_err_cases (env : Env) (st : EscrowState) (caller : Addr)
    (imm : Immutables) (h : st.immutables = some imm) (ha : env.auths caller = true) :
    (is_withdrawn_internal st = true → (cancel env st caller).out = .err .AlreadyWithdrawn)
    ∧ (is_withdrawn_internal st = false → is_cancelled_internal st = true →
        (cancel env st caller).out = .err .AlreadyCancelled) := by
  unfold cancel
  rw [h]
  dsimp only
  split_ifs <;> simp_all

end FusionPlusEscrow

namespace StellarEscrowFactory

theorem create_src_escrow_err_exists (env : FEnv) (st : FactoryState) (oh hl : B32)
    (mk tk tok : Addr) (amt sd : Int) (tl : FactoryTimelockParams)
    (hinit : st.initialized = true) (hreg : (lookupEntry st.escrow_mapping hl).isSome = true) :
    (create_src_escrow env st oh hl mk tk tok amt sd tl).out = .err .EscrowExists
    ∧ (create_src_escrow env st oh hl mk tk tok amt sd tl).state = st := by
  unfold create_src_escrow
  split_ifs <;> simp_all

theorem create_dst_escrow_err_exists (env : FEnv) (st : FactoryState) (oh hl : B32)
    (mk tk tok : Addr) (amt sd : Int) (tl : FactoryTimelockParams) (caller : Addr)
    (hinit : st.initialized = true) (hauth : env.auths caller = true)
    (hreg : (lookupEntry st.escrow_mapping hl).isSome = true) :
    (create_dst_escrow env st oh hl mk tk tok amt sd tl caller).out = .err .EscrowExists
    ∧ (create_dst_escrow env st oh hl mk tk tok amt sd tl caller).state = st := by
  unfold create_dst_escrow
  split_ifs <;> simp_all

theorem create_src_escrow_err_timelocks (env : FEnv) (st : FactoryState) (oh hl : B32)
    (mk tk tok : Addr) (amt sd : Int) (tl : FactoryTimelockParams)
    (hinit : st.initialized = true) (hfresh : lookupEntry st.escrow_mapping hl = none)
    (hviol : timelockOrderViolated tl) :
    (create_src_escrow env st oh hl mk tk tok amt sd tl).out = .err .InvalidParams
    ∧ (create_src_escrow env st oh hl mk tk tok amt sd tl).state = st := by
  unfold create_src_escrow
  split_ifs <;> simp_all

theorem create_src_escrow_ok_iff (env : FEnv) (st : FactoryState) (oh hl : B32)
    (mk tk tok : Addr) (amt sd : Int) (tl : FactoryTimelockParams) :
    (create_src_escrow env st oh hl mk tk tok amt sd tl).out.isOk = true ↔
      st.initialized = true ∧ (lookupEntry st.escrow_mapping hl).isSome = false
      ∧ 0 < amt ∧ 0 < sd ∧ ¬ timelockOrderViolated tl
      ∧ st.escrow_wasm_hash.isSome = true := by
  unfold create_src_escrow
  rcases hw : st.escrow_wasm_hash with _ | wasm <;>
    split_ifs <;>
      simp_all [Outcome.isOk, Option.not_isSome_iff_eq_none] <;>
        try omega

theorem create_src_escrow_ok_dest (env : FEnv) (st : FactoryState) (oh hl : B32)
    (mk tk tok : Addr) (amt sd : Int) (tl : FactoryTimelockParams) (wasm : B32) (a : Addr)
    (hw : st.escrow_wasm_hash = some wasm)
    (hok : (create_src_escrow env st oh hl mk tk tok amt sd tl).out = .ok a) :
    a = env.deploy_address wasm hl
    ∧ (create_src_escrow env st oh hl mk tk tok amt sd tl).state
        = { st with escrow_mapping := (hl, a) :: st.escrow_mapping }
    ∧ (create_src_escrow env st oh hl mk tk tok amt sd tl).effects
        = [.deployContract wasm hl a,
           .srcEscrowCreated
             ⟨oh, hl, a, mk, tk, tok, amt, sd,
               ⟨tl.finality_delay, tl.src_withdrawal_delay, tl.src_public_withdrawal_delay,
                 tl.src_cancellation_delay, tl.src_public_cancellation_delay,
                 tl.dst_withdrawal_delay, tl.dst_public_withdrawal_delay,
                 tl.dst_cancellation_delay, env.timestamp⟩⟩] := by
  unfold create_src_escrow at hok ⊢
  rw [hw] at hok ⊢
  dsimp only at hok ⊢
  split_ifs at hok ⊢ <;> simp_all

theorem create_dst_escrow_ok_dest (env : FEnv) (st : FactoryState) (oh hl : B32)
    (mk tk tok : Addr) (amt sd : Int) (tl : FactoryTimelockParams) (caller : Addr)
    (wasm : B32) (a : Addr) (hw : st.escrow_wasm_hash = some wasm)
    (hok : (create_dst_escrow env st oh hl mk tk tok amt sd tl caller).out = .ok a) :
    a = env.deploy_address wasm hl
    ∧ (create_dst_escrow env st oh hl mk tk tok amt sd tl caller).state
        = { st with escrow_mapping := (hl, a) :: st.escrow_mapping }
    ∧ (create_dst_escrow env st oh hl mk tk tok amt sd tl caller).effects
        = [.deployContract wasm hl a,
           .dstEscrowCreated
             ⟨oh, hl, a, mk, tk, tok, amt, sd,
               ⟨tl.finality_delay, tl.src_withdrawal_delay, tl.src_public_withdrawal_delay,
                 tl.src_cancellation_delay, tl.src_public_cancellation_delay,
                 tl.dst_withdrawal_delay, tl.dst_public_withdrawal_delay,
                 tl.dst_cancellation_delay, env.timestamp⟩⟩] := by
  unfold create_dst_escrow at hok ⊢
  rw [hw] at hok ⊢
  dsimp only at hok ⊢
  split_ifs at hok ⊢ <;> simp_all

theorem get_escrow_address_not_found_iff (st : FactoryState) (hl : B32) :
    get_escrow_address st hl = .err .EscrowNotFound ↔
      lookupEntry st.escrow_mapping hl = none := by
  unfold get_escrow_address
  rcases lookupEntry st.escrow_mapping hl with _ | a <;> simp

end StellarEscrowFactory

namespace FusionPlusEscrow

theorem withdraw_none (env : Env) (st : EscrowState) (secret : B32)
    (h : st.immutables = none) :
    withdraw env st secret = ⟨.err .NotInitialized, st, []⟩ := by
  unfold withdraw
  rw [h]

theorem public_withdraw_none (env : Env) (st : EscrowState) (secret : B32) (caller : Addr)
    (h : st.immutables = none) :
    public_withdraw env st secret caller = ⟨.err .NotInitialized, st, []⟩ := by
  unfold public_withdraw
  rw [h]

theorem cancel_none (env : Env) (st : EscrowState) (caller : Addr)
    (h : st.immutables = none) :
    cancel env st caller = ⟨.err .NotInitialized, st, []⟩ := by
  unfold cancel
  rw [h]

theorem deposit_none (env : Env) (st : EscrowState) (h : st.immutables = none) :
    deposit env st = ⟨.err .NotInitialized, st, []⟩ := by
  unfold deposit
  rw [h]

theorem emptyState_inv : EscrowInv emptyState := by
  simp [EscrowInv, emptyState, is_withdrawn_internal, is_cancelled_internal]

theorem estep_inv (st st2 : EscrowState) (hinv : EscrowInv st) (h : EStep st st2) :
    EscrowInv st2 := by
  rcases h with ⟨env, p⟩ | ⟨env⟩ | ⟨env, sec⟩ | ⟨env, sec, c⟩ | ⟨env, c⟩
  · by_cases hok : (initEscrow env st p).out = .ok ()
    · have hnone := ((initEscrow_ok_iff env st p).mp hok).1
      rw [initEscrow_ok_dest env st p hok]
      constructor
      · simp [is_withdrawn_internal, is_cancelled_internal]
      · intro hc; simp at hc
    · rw [initEscrow_not_ok_state env st p hok]; exact hinv
  · rw [deposit_state env st]; exact hinv
  · by_cases hok : (withdraw env st sec).out = .ok ()
    · rcases him : st.immutables with _ | imm
      · rw [withdraw_none env st sec him] at hok; simp at hok
      · have hcond := (withdraw_ok_iff env st sec imm him).mp hok
        rw [(withdraw_ok_dest env st sec imm him hok).1]
        constructor
        · simp only [is_withdrawn_internal, is_cancelled_internal] at hcond ⊢
          simp [hcond.2.2.1]
        · intro hc; simp [him] at hc
    · rw [withdraw_not_ok_state env st sec hok]; exact hinv
  · by_cases hok : (public_withdraw env st sec c).out = .ok ()
    · rcases him : st.immutables with _ | imm
      · rw [public_withdraw_none env st sec c him] at hok; simp at hok
      · have hcond := (public_withdraw_ok_iff env st sec c imm him).mp hok
        rw [(public_withdraw_ok_dest env st sec c imm him hok).1]
        constructor
        · simp only [is_withdrawn_internal, is_cancelled_internal] at hcond ⊢
          simp [hcond.2.2.1]
        · intro hc; simp [him] at hc
    · rw [public_withdraw_not_ok_state env st sec c hok]; exact hinv
  · by_cases hok : (cancel env st c).out = .ok ()
    · rcases him : st.immutables with _ | imm
      · rw [cancel_none env st c him] at hok; simp at hok
      · have hcond := (cancel_ok_iff env st c imm him).mp hok
        rw [(cancel_ok_dest env st c imm him hok).1]
        constructor
        · simp only [is_withdrawn_internal, is_cancelled_internal] at hcond ⊢
          simp [hcond.2.1]
        · intro hc; simp [him] at hc
    · rw [cancel_not_ok_state env st c hok]; exact hinv

theorem estep_mono (st st2 : EscrowState) (hinv : EscrowInv st) (h : EStep st st2) :
    (is_withdrawn_internal st = true → is_withdrawn_internal st2 = true)
    ∧ (is_cancelled_internal st = true → is_cancelled_internal st2 = true) := by
  rcases h with ⟨env, p⟩ | ⟨env⟩ | ⟨env, sec⟩ | ⟨env, sec, c⟩ | ⟨env, c⟩
  · by_cases hok : (initEscrow env st p).out = .ok ()
    · have hnone := ((initEscrow_ok_iff env st p).mp hok).1
      have hflags := hinv.2 hnone
      rw [initEscrow_ok_dest env st p hok]
      simp [is_withdrawn_internal, is_cancelled_internal, hflags.1, hflags.2]
    · rw [initEscrow_not_ok_state env st p hok]; exact ⟨id, id⟩
  · rw [deposit_state env st]; exact ⟨id, id⟩
  · by_cases hok : (withdraw env st sec).out = .ok ()
    · rcases him : st.immutables with _ | imm
      · rw [withdraw_none env st sec him] at hok; simp at hok
      · rw [(withdraw_ok_dest env st sec imm him hok).1]
        simp [is_withdrawn_internal, is_cancelled_internal]
    · rw [withdraw_not_ok_state env st sec hok]; exact ⟨id, id⟩
  · by_cases hok : (public_withdraw env st sec c).out = .ok ()
    · rcases him : st.immutables with _ | imm
      · rw [public_withdraw_none env st sec c him] at hok; simp at hok
      · rw [(public_withdraw_ok_dest env st sec c imm him hok).1]
        simp [is_withdrawn_internal, is_cancelled_internal]
    · rw [public_withdraw_not_ok_state env st sec c hok]; exact ⟨id, id⟩
  · by_cases hok : (cancel env st c).out = .ok ()
    · rcases him : st.immutables with _ | imm
      · rw [cancel_none env st c him] at hok; simp at hok
      · rw [(cancel_ok_dest env st c imm him hok).1]
        simp [is_withdrawn_internal, is_cancelled_internal]
    · rw [cancel_not_ok_state env st c hok]; exact ⟨id, id⟩

theorem reachable_inv (st : EscrowState) (hr : Reachable st) : EscrowInv st := by
  induction hr with
  | empty => exact emptyState_inv
  | step st st2 hr hstep ih => exact estep_inv st st2 ih hstep

end FusionPlusEscrow

/-- Claim C7 (confirmed): every escrow operation (`initialize`, `deposit`,
`withdraw`, `public_withdraw`, `cancel`) is atomic on error — whenever the
call returns anything other than success (a contract error or a host trap),
the stored escrow state (immutables, withdrawn flag, cancelled flag,
revealed secret) is exactly the same after the call as before it. -/
theorem c7_escrow_operations_atomic_on_error (env : FusionPlusEscrow.Env)
    (st : FusionPlusEscrow.EscrowState) (p : FusionPlusEscrow.InitParams)
    (secret : B32) (caller : Addr) :
    ((FusionPlusEscrow.initEscrow env st p).out ≠ .ok () →
      (FusionPlusEscrow.initEscrow env st p).state = st)
    ∧ ((FusionPlusEscrow.deposit env st).out ≠ .ok () →
      (FusionPlusEscrow.deposit env st).state = st)
    ∧ ((FusionPlusEscrow.withdraw env st secret).out ≠ .ok () →
      (FusionPlusEscrow.withdraw env st secret).state = st)
    ∧ ((FusionPlusEscrow.public_withdraw env st secret caller).out ≠ .ok () →
      (FusionPlusEscrow.public_withdraw env st secret caller).state = st)
    ∧ ((FusionPlusEscrow.cancel env st caller).out ≠ .ok () →
      (FusionPlusEscrow.cancel env st caller).state = st) :=
  ⟨FusionPlusEscrow.initEscrow_not_ok_state env st p,
   fun _ => FusionPlusEscrow.deposit_state env st,
   FusionPlusEscrow.withdraw_not_ok_state env st secret,
   FusionPlusEscrow.public_withdraw_not_ok_state env st secret caller,
   FusionPlusEscrow.cancel_not_ok_state env st caller⟩

/-- Witness for C7: a concrete escrow state on which all five operations fail
(`initialize` because the escrow is already initialized, the others because
no caller authorized the invocation), each leaving the state unchanged. -/
theorem c7_escrow_operations_atomic_on_error_witness :
    (FusionPlusEscrow.initEscrow ⟨0, 0, fun _ => false, fun s => s⟩
        ⟨some ⟨0, 7, 1, 2, 3, 1, 1, ⟨10, 20, 100, 40, 50, 1000⟩⟩, some false, some false, none⟩
        ⟨0, 7, 1, 2, 3, 1, 1, ⟨10, 20, 30, 40, 50⟩⟩).state
      = ⟨some ⟨0, 7, 1, 2, 3, 1, 1, ⟨10, 20, 100, 40, 50, 1000⟩⟩, some false, some false, none⟩
    ∧ (FusionPlusEscrow.deposit ⟨0, 0, fun _ => false, fun s => s⟩
        ⟨some ⟨0, 7, 1, 2, 3, 1, 1, ⟨10, 20, 100, 40, 50, 1000⟩⟩, some false, some false, none⟩).state
      = ⟨some ⟨0, 7, 1, 2, 3, 1, 1, ⟨10, 20, 100, 40, 50, 1000⟩⟩, some false, some false, none⟩
    ∧ (FusionPlusEscrow.withdraw ⟨0, 0, fun _ => false, fun s => s⟩
        ⟨some ⟨0, 7, 1, 2, 3, 1, 1, ⟨10, 20, 100, 40, 50, 1000⟩⟩, some false, some false, none⟩ 7).state
      = ⟨some ⟨0, 7, 1, 2, 3, 1, 1, ⟨10, 20, 100, 40, 50, 1000⟩⟩, some false, some false, none⟩
    ∧ (FusionPlusEscrow.public_withdraw ⟨0, 0, fun _ => false, fun s => s⟩
        ⟨some ⟨0, 7, 1, 2, 3, 1, 1, ⟨10, 20, 100, 40, 50, 1000⟩⟩, some false, some false, none⟩ 7 9).state
      = ⟨some ⟨0, 7, 1, 2, 3, 1, 1, ⟨10, 20, 100, 40, 50, 1000⟩⟩, some false, some false, none⟩
    ∧ (FusionPlusEscrow.cancel ⟨0, 0, fun _ => false, fun s => s⟩
        ⟨some ⟨0, 7, 1, 2, 3, 1, 1, ⟨10, 20, 100, 40, 50, 1000⟩⟩, some false, some false, none⟩ 9).state
      = ⟨some ⟨0, 7, 1, 2, 3, 1, 1, ⟨10, 20, 100, 40, 50, 1000⟩⟩, some false, some false, none⟩ := by
  have h := c7_escrow_operations_atomic_on_error ⟨0, 0, fun _ => false, fun s => s⟩
    ⟨some ⟨0, 7, 1, 2, 3, 1, 1, ⟨10, 20, 100, 40, 50, 1000⟩⟩, some false, some false, none⟩
    ⟨0, 7, 1, 2, 3, 1, 1, ⟨10, 20, 30, 40, 50⟩⟩ 7 9
  exact ⟨h.1 (by decide), h.2.1 (by decide), h.2.2.1 (by decide),
    h.2.2.2.1 (by decide), h.2.2.2.2 (by decide)⟩

/-- Claim C8 counterexample: on an initialized escrow that has not been
withdrawn, `get_revealed_secret` fails with `Error::InvalidTime` — the
temporal error kind ("Action not allowed at this time"), not an
InvalidState-kind error as the claim states (the escrow error enumeration
has no InvalidState variant at all). -/
theorem c8_counterexample :
    FusionPlusEscrow.get_revealed_secret
        ⟨some ⟨0, 7, 1, 2, 3, 1, 1, ⟨10, 20, 100, 40, 50, 1000⟩⟩, some false, some false, none⟩
      = .err .InvalidTime := by decide

/-- Claim C8 amended: `get_revealed_secret` returns the stored secret when
`withdrawn = true` (and a secret is stored), and fails with the temporal
error `Error::InvalidTime` — not an InvalidState-kind error, which does not
exist in the error enumeration — whenever `withdrawn` is false. -/
theorem c8_get_revealed_secret_amended (st : FusionPlusEscrow.EscrowState) (s : B32) :
    (FusionPlusEscrow.is_withdrawn_internal st = false →
      FusionPlusEscrow.get_revealed_secret st = .err .InvalidTime)
    ∧ (FusionPlusEscrow.is_withdrawn_internal st = true →
      st.revealed_secret = some s →
      FusionPlusEscrow.get_revealed_secret st = .ok s) := by
  unfold FusionPlusEscrow.get_revealed_secret
  constructor
  · intro h; simp [h]
  · intro h hs; simp [h, hs]

/-- Witness for the amended C8: a non-withdrawn escrow yields `InvalidTime`;
a withdrawn escrow with stored secret 7 yields that secret. -/
theorem c8_get_revealed_secret_amended_witness :
    FusionPlusEscrow.get_revealed_secret FusionPlusEscrow.emptyState = .err .InvalidTime
    ∧ FusionPlusEscrow.get_revealed_secret ⟨none, some true, none, some 7⟩ = .ok 7 := by
  have h1 := c8_get_revealed_secret_amended FusionPlusEscrow.emptyState 0
  have h2 := c8_get_revealed_secret_amended ⟨none, some true, none, some 7⟩ 7
  exact ⟨h1.1 (by decide), h2.2 (by decide) (by decide)⟩

/-- Claim C9 (confirmed): on an escrow contract that has never been
initialized (no storage key present), the public status getters
`is_withdrawn_status` and `is_cancelled_status` return `Ok(false)` rather
than a `NotInitialized` error, while every fund-moving operation (`deposit`,
`withdraw`, `public_withdraw`, `cancel`) fails with `NotInitialized`. -/
theorem c9_uninitialized_status_getters (env : FusionPlusEscrow.Env)
    (st : FusionPlusEscrow.EscrowState) (secret : B32) (caller : Addr)
    (h1 : st.immutables = none) (h2 : st.withdrawn = none) (h3 : st.cancelled = none) :
    FusionPlusEscrow.is_withdrawn_status st = .ok false
    ∧ FusionPlusEscrow.is_cancelled_status st = .ok false
    ∧ (FusionPlusEscrow.deposit env st).out = .err .NotInitialized
    ∧ (FusionPlusEscrow.withdraw env st secret).out = .err .NotInitialized
    ∧ (FusionPlusEscrow.public_withdraw env st secret caller).out = .err .NotInitialized
    ∧ (FusionPlusEscrow.cancel env st caller).out = .err .NotInitialized := by
  refine ⟨?_, ?_, ?_, ?_, ?_, ?_⟩
  · simp [FusionPlusEscrow.is_withdrawn_status, FusionPlusEscrow.is_withdrawn_internal, h2]
  · simp [FusionPlusEscrow.is_cancelled_status, FusionPlusEscrow.is_cancelled_internal, h3]
  · rw [FusionPlusEscrow.deposit_none env st h1]
  · rw [FusionPlusEscrow.withdraw_none env st secret h1]
  · rw [FusionPlusEscrow.public_withdraw_none env st secret caller h1]
  · rw [FusionPlusEscrow.cancel_none env st caller h1]

/-- Witness for C9: the fresh empty storage. -/
theorem c9_uninitialized_status_getters_witness :
    FusionPlusEscrow.is_withdrawn_status FusionPlusEscrow.emptyState = .ok false
    ∧ FusionPlusEscrow.is_cancelled_status FusionPlusEscrow.emptyState = .ok false
    ∧ (FusionPlusEscrow.deposit ⟨0, 0, fun _ => true, fun s => s⟩
        FusionPlusEscrow.emptyState).out = .err .NotInitialized
    ∧ (FusionPlusEscrow.withdraw ⟨0, 0, fun _ => true, fun s => s⟩
        FusionPlusEscrow.emptyState 7).out = .err .NotInitialized
    ∧ (FusionPlusEscrow.public_withdraw ⟨0, 0, fun _ => true, fun s => s⟩
        FusionPlusEscrow.emptyState 7 9).out = .err .NotInitialized
    ∧ (FusionPlusEscrow.cancel ⟨0, 0, fun _ => true, fun s => s⟩
        FusionPlusEscrow.emptyState 9).out = .err .NotInitialized :=
  c9_uninitialized_status_getters ⟨0, 0, fun _ => true, fun s => s⟩
    FusionPlusEscrow.emptyState 7 9 rfl rfl rfl

/-- Claim C10 (confirmed): in `fill_order` the division
`(amount * order.making_amount) / order.taking_amount` never divides by
zero on any execution path that reaches it: `validate_order` rejects every
order with `making_amount == 0` or `taking_amount == 0` with
`SwapWithZeroAmount` before the division, so the division-by-zero abort is
unreachable for all environments, states, orders, and arguments. -/
theorem c10_fill_order_never_divides_by_zero (env : StellarLimitOrderProtocol.LEnv)
    (st : StellarLimitOrderProtocol.LopState) (order : StellarLimitOrderProtocol.Order)
    (signature : List Nat) (taker : Addr) (amount : Nat)
    (tt : StellarLimitOrderProtocol.TakerTraits) :
    (StellarLimitOrderProtocol.fill_order env st order signature taker amount tt).out
      ≠ .trap .divByZero := by
  unfold StellarLimitOrderProtocol.fill_order
  cases hv : StellarLimitOrderProtocol.validate_order order with
  | err e => simp
  | trap t =>
    unfold StellarLimitOrderProtocol.validate_order at hv
    split_ifs at hv <;> simp_all
  | ok u =>
    have hta : order.taking_amount ≠ 0 := by
      unfold StellarLimitOrderProtocol.validate_order at hv
      split_ifs at hv with hc
      exact fun h0 => hc (Or.inr h0)
    cases hs : StellarLimitOrderProtocol.verify_signature env order signature with
    | err e => simp
    | trap t =>
      unfold StellarLimitOrderProtocol.verify_signature at hs
      split_ifs at hs <;> cases hs <;> simp
    | ok u2 =>
      dsimp only
      split_ifs <;> simp_all

/-- Claim C6 (confirmed): factory registry entries are write-once — for every
hash_lock already registered, a second `create_src_escrow` or
`create_dst_escrow` with that hash_lock (and arbitrary other parameters,
on an initialized factory, with the dst caller authorized) fails with
`EscrowExists` and leaves the registry unchanged; and `get_escrow_address`
fails with `EscrowNotFound` exactly when no entry for the hash_lock exists. -/
theorem c6_registry_write_once (env : StellarEscrowFactory.FEnv)
    (st : StellarEscrowFactory.FactoryState) (oh hl : B32) (mk tk tok : Addr)
    (amt sd : Int) (tl : StellarEscrowFactory.FactoryTimelockParams)
    (caller : Addr) (a : Addr)
    (hreg : lookupEntry st.escrow_mapping hl = some a) :
    (st.initialized = true →
      (StellarEscrowFactory.create_src_escrow env st oh hl mk tk tok amt sd tl).out
          = .err .EscrowExists
      ∧ (StellarEscrowFactory.create_src_escrow env st oh hl mk tk tok amt sd tl).state = st)
    ∧ (st.initialized = true → env.auths caller = true →
      (StellarEscrowFactory.create_dst_escrow env st oh hl mk tk tok amt sd tl caller).out
          = .err .EscrowExists
      ∧ (StellarEscrowFactory.create_dst_escrow env st oh hl mk tk tok amt sd tl caller).state
          = st)
    ∧ (∀ (st2 : StellarEscrowFactory.FactoryState) (hl2 : B32),
        StellarEscrowFactory.get_escrow_address st2 hl2 = .err .EscrowNotFound ↔
          lookupEntry st2.escrow_mapping hl2 = none) := by
  refine ⟨?_, ?_, fun st2 hl2 => StellarEscrowFactory.get_escrow_address_not_found_iff st2 hl2⟩
  · intro hinit
    exact StellarEscrowFactory.create_src_escrow_err_exists env st oh hl mk tk tok amt sd tl
      hinit (by simp [hreg])
  · intro hinit hauth
    exact StellarEscrowFactory.create_dst_escrow_err_exists env st oh hl mk tk tok amt sd tl
      caller hinit hauth (by simp [hreg])

/-- Witness for C6: a factory whose registry maps hash_lock 5 to address 99
rejects a second src creation and a second dst creation for hash_lock 5 with
`EscrowExists` (with entirely different other parameters), and lookups behave
as stated. -/
theorem c6_registry_write_once_witness :
    ((StellarEscrowFactory.create_src_escrow ⟨1000, 50, fun _ => true, fun w s => w * 1000 + s⟩
        ⟨true, some 77, some 1, some 2, [(5, 99)]⟩ 0 5 1 2 3 1 1
        ⟨10, 20, 30, 40, 50, 60, 70, 80⟩).out = .err .EscrowExists
      ∧ (StellarEscrowFactory.create_src_escrow ⟨1000, 50, fun _ => true, fun w s => w * 1000 + s⟩
        ⟨true, some 77, some 1, some 2, [(5, 99)]⟩ 0 5 1 2 3 1 1
        ⟨10, 20, 30, 40, 50, 60, 70, 80⟩).state = ⟨true, some 77, some 1, some 2, [(5, 99)]⟩)
    ∧ ((StellarEscrowFactory.create_dst_escrow ⟨1000, 50, fun _ => true, fun w s => w * 1000 + s⟩
        ⟨true, some 77, some 1, some 2, [(5, 99)]⟩ 8 5 11 12 13 2 2
        ⟨1, 2, 3, 4, 5, 6, 7, 8⟩ 9).out = .err .EscrowExists
      ∧ (StellarEscrowFactory.create_dst_escrow ⟨1000, 50, fun _ => true, fun w s => w * 1000 + s⟩
        ⟨true, some 77, some 1, some 2, [(5, 99)]⟩ 8 5 11 12 13 2 2
        ⟨1, 2, 3, 4, 5, 6, 7, 8⟩ 9).state = ⟨true, some 77, some 1, some 2, [(5, 99)]⟩)
    ∧ (StellarEscrowFactory.get_escrow_address ⟨true, some 77, some 1, some 2, [(5, 99)]⟩ 6
        = .err .EscrowNotFound ↔
        lookupEntry (⟨true, some 77, some 1, some 2, [(5, 99)]⟩ :
          StellarEscrowFactory.FactoryState).escrow_mapping 6 = none) := by
  have h1 := c6_registry_write_once ⟨1000, 50, fun _ => true, fun w s => w * 1000 + s⟩
    ⟨true, some 77, some 1, some 2, [(5, 99)]⟩ 0 5 1 2 3 1 1
    ⟨10, 20, 30, 40, 50, 60, 70, 80⟩ 9 99 (by decide)
  have h2 := c6_registry_write_once ⟨1000, 50, fun _ => true, fun w s => w * 1000 + s⟩
    ⟨true, some 77, some 1, some 2, [(5, 99)]⟩ 8 5 11 12 13 2 2
    ⟨1, 2, 3, 4, 5, 6, 7, 8⟩ 9 99 (by decide)
  exact ⟨h1.1 (by decide), h2.2.1 (by decide) (by decide),
    h1.2.2 ⟨true, some 77, some 1, some 2, [(5, 99)]⟩ 6⟩

/-- Claim C5 counterexample: a concrete successful `create_src_escrow` call —
on an initialized factory with stored escrow wasm hash 77, deterministic
deployment addressing, and valid parameters — succeeds, deploys and registers
the instance, but performs NO cross-contract `initialize` invocation on the
deployed escrow (the source defers initialization to the caller with an
explicit TODO), contradicting the claim that the factory calls the deployed
instance's `initialize` with the creation parameters. -/
theorem c5_counterexample :
    ((StellarEscrowFactory.create_src_escrow ⟨1000, 50, fun _ => true, fun w s => w * 1000 + s⟩
        ⟨true, some 77, some 1, some 2, []⟩ 0 5 1 2 3 1 1
        ⟨10, 20, 30, 40, 50, 60, 70, 80⟩).out).isOk = true
    ∧ ((StellarEscrowFactory.create_src_escrow ⟨1000, 50, fun _ => true, fun w s => w * 1000 + s⟩
        ⟨true, some 77, some 1, some 2, []⟩ 0 5 1 2 3 1 1
        ⟨10, 20, 30, 40, 50, 60, 70, 80⟩).effects.all
          (fun e => ! StellarEscrowFactory.Effect.isInitCall e)) = true := by decide

/-- Claim C5 amended: every successful `create_src_escrow` or
`create_dst_escrow` deploys a new escrow instance at the deterministic
address derived from the stored wasm hash and the hash_lock salt, records
`hash_lock -> address` in the registry, and emits a creation record carrying
all immutable parameters — but it does NOT call the deployed instance's
`initialize` (the source leaves that to the caller, marked TODO): the effect
list of a successful call contains no cross-contract initialize invocation. -/
theorem c5_create_escrow_amended (env : StellarEscrowFactory.FEnv)
    (st : StellarEscrowFactory.FactoryState) (oh hl : B32) (mk tk tok : Addr)
    (amt sd : Int) (tl : StellarEscrowFactory.FactoryTimelockParams)
    (caller : Addr) (wasm : B32) (a : Addr)
    (hw : st.escrow_wasm_hash = some wasm) :
    ((StellarEscrowFactory.create_src_escrow env st oh hl mk tk tok amt sd tl).out = .ok a →
      a = env.deploy_address wasm hl
      ∧ (StellarEscrowFactory.create_src_escrow env st oh hl mk tk tok amt sd tl).state
          = { st with escrow_mapping := (hl, a) :: st.escrow_mapping }
      ∧ (StellarEscrowFactory.create_src_escrow env st oh hl mk tk tok amt sd tl).effects
          = [.deployContract wasm hl a,
             .srcEscrowCreated
               ⟨oh, hl, a, mk, tk, tok, amt, sd,
                 ⟨tl.finality_delay, tl.src_withdrawal_delay, tl.src_public_withdrawal_delay,
                   tl.src_cancellation_delay, tl.src_public_cancellation_delay,
                   tl.dst_withdrawal_delay, tl.dst_public_withdrawal_delay,
                   tl.dst_cancellation_delay, env.timestamp⟩⟩]
      ∧ ((StellarEscrowFactory.create_src_escrow env st oh hl mk tk tok amt sd tl).effects.all
          (fun e => ! StellarEscrowFactory.Effect.isInitCall e)) = true)
    ∧ ((StellarEscrowFactory.create_dst_escrow env st oh hl mk tk tok amt sd tl caller).out
          = .ok a →
      a = env.deploy_address wasm hl
      ∧ (StellarEscrowFactory.create_dst_escrow env st oh hl mk tk tok amt sd tl caller).state
          = { st with escrow_mapping := (hl, a) :: st.escrow_mapping }
      ∧ (StellarEscrowFactory.create_dst_escrow env st oh hl mk tk tok amt sd tl caller).effects
          = [.deployContract wasm hl a,
             .dstEscrowCreated
               ⟨oh, hl, a, mk, tk, tok, amt, sd,
                 ⟨tl.finality_delay, tl.src_withdrawal_delay, tl.src_public_withdrawal_delay,
                   tl.src_cancellation_delay, tl.src_public_cancellation_delay,
                   tl.dst_withdrawal_delay, tl.dst_public_withdrawal_delay,
                   tl.dst_cancellation_delay, env.timestamp⟩⟩]
      ∧ ((StellarEscrowFactory.create_dst_escrow env st oh hl mk tk tok amt sd tl
            caller).effects.all
          (fun e => ! StellarEscrowFactory.Effect.isInitCall e)) = true) := by
  constructor
  · intro hok
    have h := StellarEscrowFactory.create_src_escrow_ok_dest env st oh hl mk tk tok amt sd tl
      wasm a hw hok
    refine ⟨h.1, h.2.1, h.2.2, ?_⟩
    rw [h.2.2]
    simp [StellarEscrowFactory.Effect.isInitCall]
  · intro hok
    have h := StellarEscrowFactory.create_dst_escrow_ok_dest env st oh hl mk tk tok amt sd tl
      caller wasm a hw hok
    refine ⟨h.1, h.2.1, h.2.2, ?_⟩
    rw [h.2.2]
    simp [StellarEscrowFactory.Effect.isInitCall]

/-- Witness for the amended C5: concrete successful src and dst creations on
an initialized factory with wasm hash 77 and addressing `w * 1000 + s`. -/
theorem c5_create_escrow_amended_witness :
    ((StellarEscrowFactory.create_src_escrow ⟨1000, 50, fun _ => true, fun w s => w * 1000 + s⟩
        ⟨true, some 77, some 1, some 2, []⟩ 0 5 1 2 3 1 1
        ⟨10, 20, 30, 40, 50, 60, 70, 80⟩).state
      = { (⟨true, some 77, some 1, some 2, []⟩ : StellarEscrowFactory.FactoryState) with
            escrow_mapping := [(5, 77005)] }
      ∧ ((StellarEscrowFactory.create_src_escrow ⟨1000, 50, fun _ => true, fun w s => w * 1000 + s⟩
        ⟨true, some 77, some 1, some 2, []⟩ 0 5 1 2 3 1 1
        ⟨10, 20, 30, 40, 50, 60, 70, 80⟩).effects.all
          (fun e => ! StellarEscrowFactory.Effect.isInitCall e)) = true)
    ∧ ((StellarEscrowFactory.create_dst_escrow ⟨1000, 50, fun _ => true, fun w s => w * 1000 + s⟩
        ⟨true, some 77, some 1, some 2, []⟩ 0 6 1 2 3 1 1
        ⟨10, 20, 30, 40, 50, 60, 70, 80⟩ 9).state
      = { (⟨true, some 77, some 1, some 2, []⟩ : StellarEscrowFactory.FactoryState) with
            escrow_mapping := [(6, 77006)] }
      ∧ ((StellarEscrowFactory.create_dst_escrow ⟨1000, 50, fun _ => true, fun w s => w * 1000 + s⟩
        ⟨true, some 77, some 1, some 2, []⟩ 0 6 1 2 3 1 1
        ⟨10, 20, 30, 40, 50, 60, 70, 80⟩ 9).effects.all
          (fun e => ! StellarEscrowFactory.Effect.isInitCall e)) = true) := by
  have h1 := c5_create_escrow_amended ⟨1000, 50, fun _ => true, fun w s => w * 1000 + s⟩
    ⟨true, some 77, some 1, some 2, []⟩ 0 5 1 2 3 1 1
    ⟨10, 20, 30, 40, 50, 60, 70, 80⟩ 9 77 77005 rfl
  have h2 := c5_create_escrow_amended ⟨1000, 50, fun _ => true, fun w s => w * 1000 + s⟩
    ⟨true, some 77, some 1, some 2, []⟩ 0 6 1 2 3 1 1
    ⟨10, 20, 30, 40, 50, 60, 70, 80⟩ 9 77 77006 rfl
  have ha := h1.1 (by decide)
  have hb := h2.2 (by decide)
  exact ⟨⟨ha.2.1, ha.2.2.2⟩, ⟨hb.2.1, hb.2.2.2⟩⟩

namespace FusionPlusEscrow

theorem initEscrow_err_timelocks (env : Env) (st : EscrowState) (p : InitParams)
    (hnone : st.immutables = none)
    (hviol : p.timelocks.src_withdrawal ≤ p.timelocks.finality
      ∨ p.timelocks.src_cancellation ≤ p.timelocks.src_withdrawal) :
    (initEscrow env st p).out = .err .InvalidParams ∧ (initEscrow env st p).state = st := by
  unfold initEscrow
  split_ifs <;> simp_all <;> omega

end FusionPlusEscrow

/-- Claim C1 counterexample: `FusionPlusEscrow::initialize` succeeds on the
delay configuration (finality 10, withdrawal 20, cancellation 30) even though
the public-withdrawal boundary it later enforces — withdrawal delay plus the
hard-coded 3600-second grace period — is NOT strictly below the cancellation
boundary (20 + 3600 is not less than 30), and the escrow has no
public-cancellation delay at all; so a configuration violating the claimed
strict chain `withdrawal < public_withdrawal < cancellation` is accepted
rather than rejected with `InvalidParams`. -/
theorem c1_counterexample :
    (FusionPlusEscrow.initEscrow ⟨1000, 0, fun _ => true, fun s => s⟩
        FusionPlusEscrow.emptyState ⟨0, 7, 1, 2, 3, 1, 1, ⟨10, 20, 30, 40, 50⟩⟩).out = .ok ()
    ∧ ¬((20 : Nat) + 3600 < 30) := by decide

/-- Claim C1 amended: the factory's `create_src_escrow` does enforce the five
strict src-side inequalities `finality < withdrawal < public_withdrawal <
cancellation < public_cancellation` (together with three dst-side ones,
`finality < dst_withdrawal < dst_public_withdrawal < dst_cancellation`):
it succeeds only if all of them hold, and on an initialized factory with a
fresh hash_lock any violating configuration fails with `InvalidParams` and
leaves the registry unchanged.  `FusionPlusEscrow::initialize`, however,
checks only `finality < withdrawal < cancellation` — its parameters have no
public-window delays (the public-withdrawal boundary is the hard-coded
withdrawal + 3600 and there is no public cancellation) — succeeding only if
those two strict inequalities hold and failing with `InvalidParams`
(with no escrow state created) when either is violated. -/
theorem c1_timelock_validation_amended (env : StellarEscrowFactory.FEnv)
    (st : StellarEscrowFactory.FactoryState) (oh hl : B32) (mk tk tok : Addr)
    (amt sd : Int) (tl : StellarEscrowFactory.FactoryTimelockParams)
    (eenv : FusionPlusEscrow.Env) (est : FusionPlusEscrow.EscrowState)
    (p : FusionPlusEscrow.InitParams) :
    (((StellarEscrowFactory.create_src_escrow env st oh hl mk tk tok amt sd tl).out).isOk = true →
      tl.finality_delay < tl.src_withdrawal_delay
      ∧ tl.src_withdrawal_delay < tl.src_public_withdrawal_delay
      ∧ tl.src_public_withdrawal_delay < tl.src_cancellation_delay
      ∧ tl.src_cancellation_delay < tl.src_public_cancellation_delay
      ∧ tl.finality_delay < tl.dst_withdrawal_delay
      ∧ tl.dst_withdrawal_delay < tl.dst_public_withdrawal_delay
      ∧ tl.dst_public_withdrawal_delay < tl.dst_cancellation_delay)
    ∧ (st.initialized = true → lookupEntry st.escrow_mapping hl = none →
        StellarEscrowFactory.timelockOrderViolated tl →
        (StellarEscrowFactory.create_src_escrow env st oh hl mk tk tok amt sd tl).out
            = .err .InvalidParams
        ∧ (StellarEscrowFactory.create_src_escrow env st oh hl mk tk tok amt sd tl).state = st)
    ∧ ((FusionPlusEscrow.initEscrow eenv est p).out = .ok () →
        p.timelocks.finality < p.timelocks.src_withdrawal
        ∧ p.timelocks.src_withdrawal < p.timelocks.src_cancellation)
    ∧ (est.immutables = none →
        (p.timelocks.src_withdrawal ≤ p.timelocks.finality
          ∨ p.timelocks.src_cancellation ≤ p.timelocks.src_withdrawal) →
        (FusionPlusEscrow.initEscrow eenv est p).out = .err .InvalidParams
        ∧ (FusionPlusEscrow.initEscrow eenv est p).state = est) := by
  refine ⟨?_, ?_, ?_, ?_⟩
  · intro hok
    have h := (StellarEscrowFactory.create_src_escrow_ok_iff env st oh hl mk tk tok
      amt sd tl).mp hok
    have hv := h.2.2.2.2.1
    unfold StellarEscrowFactory.timelockOrderViolated at hv
    omega
  · intro hinit hfresh hviol
    exact StellarEscrowFactory.create_src_escrow_err_timelocks env st oh hl mk tk tok amt sd tl
      hinit hfresh hviol
  · intro hok
    have h := (FusionPlusEscrow.initEscrow_ok_iff eenv est p).mp hok
    exact ⟨h.2.2.2.1, h.2.2.2.2⟩
  · intro hnone hviol
    exact FusionPlusEscrow.initEscrow_err_timelocks eenv est p hnone hviol

/-- Witness for the amended C1: a successful factory creation yields the
strict chains; the factory rejects a swapped public-withdrawal delay with
`InvalidParams`; a successful escrow initialization yields its two checked
inequalities; and the escrow rejects withdrawal not after finality. -/
theorem c1_timelock_validation_amended_witness :
    ((10 : Nat) < 20 ∧ (20 : Nat) < 30 ∧ (30 : Nat) < 40 ∧ (40 : Nat) < 50
      ∧ (10 : Nat) < 60 ∧ (60 : Nat) < 70 ∧ (70 : Nat) < 80)
    ∧ ((StellarEscrowFactory.create_src_escrow ⟨1000, 50, fun _ => true, fun w s => w * 1000 + s⟩
        ⟨true, some 77, some 1, some 2, []⟩ 0 5 1 2 3 1 1
        ⟨10, 30, 20, 40, 50, 60, 70, 80⟩).out = .err .InvalidParams
      ∧ (StellarEscrowFactory.create_src_escrow ⟨1000, 50, fun _ => true, fun w s => w * 1000 + s⟩
        ⟨true, some 77, some 1, some 2, []⟩ 0 5 1 2 3 1 1
        ⟨10, 30, 20, 40, 50, 60, 70, 80⟩).state = ⟨true, some 77, some 1, some 2, []⟩)
    ∧ ((10 : Nat) < 20 ∧ (20 : Nat) < 30)
    ∧ ((FusionPlusEscrow.initEscrow ⟨1000, 0, fun _ => true, fun s => s⟩
        FusionPlusEscrow.emptyState ⟨0, 7, 1, 2, 3, 1, 1, ⟨25, 20, 30, 40, 50⟩⟩).out
          = .err .InvalidParams
      ∧ (FusionPlusEscrow.initEscrow ⟨1000, 0, fun _ => true, fun s => s⟩
        FusionPlusEscrow.emptyState ⟨0, 7, 1, 2, 3, 1, 1, ⟨25, 20, 30, 40, 50⟩⟩).state
          = FusionPlusEscrow.emptyState) := by
  have h1 := c1_timelock_validation_amended ⟨1000, 50, fun _ => true, fun w s => w * 1000 + s⟩
    ⟨true, some 77, some 1, some 2, []⟩ 0 5 1 2 3 1 1 ⟨10, 20, 30, 40, 50, 60, 70, 80⟩
    ⟨1000, 0, fun _ => true, fun s => s⟩ FusionPlusEscrow.emptyState
    ⟨0, 7, 1, 2, 3, 1, 1, ⟨10, 20, 30, 40, 50⟩⟩
  have h2 := c1_timelock_validation_amended ⟨1000, 50, fun _ => true, fun w s => w * 1000 + s⟩
    ⟨true, some 77, some 1, some 2, []⟩ 0 5 1 2 3 1 1 ⟨10, 30, 20, 40, 50, 60, 70, 80⟩
    ⟨1000, 0, fun _ => true, fun s => s⟩ FusionPlusEscrow.emptyState
    ⟨0, 7, 1, 2, 3, 1, 1, ⟨25, 20, 30, 40, 50⟩⟩
  exact ⟨h1.1 (by decide),
    h2.2.1 (by decide) (by decide) (by decide),
    h1.2.2.1 (by decide),
    h2.2.2.2 (by decide) (by decide)⟩

/-- Claim C2 counterexample: on an initialized, non-terminal escrow (maker 1,
taker 2, token 3, amount 1, safety deposit 1, hash_lock 7, deployed at 1000
with withdrawal delay 20 and cancellation delay 100; identity keccak; time
1050 inside the window) a private withdrawal with the correct secret
succeeds, but its externally visible effects are exactly the token transfer
of the locked amount to the maker and the withdrawal event: NO transfer of
the safety deposit to the counterparty occurs (`transfer_native` is a
placeholder that moves nothing).  Moreover, when the taker has not
authorized the call the operation aborts with a host authorization trap,
not with `Error::Unauthorized` as the claim states. -/
theorem c2_counterexample :
    ((FusionPlusEscrow.withdraw ⟨1050, 0, fun _ => true, fun s => s⟩
        ⟨some ⟨0, 7, 1, 2, 3, 1, 1, ⟨10, 20, 100, 40, 50, 1000⟩⟩, some false, some false, none⟩
        7).out = .ok ()
      ∧ (FusionPlusEscrow.withdraw ⟨1050, 0, fun _ => true, fun s => s⟩
        ⟨some ⟨0, 7, 1, 2, 3, 1, 1, ⟨10, 20, 100, 40, 50, 1000⟩⟩, some false, some false, none⟩
        7).effects = [.tokenTransfer 3 0 1 1, .withdrawal ⟨7, 7, 2, false⟩]
      ∧ FusionPlusEscrow.Effect.nativeTransfer 2 1 ∉
          (FusionPlusEscrow.withdraw ⟨1050, 0, fun _ => true, fun s => s⟩
            ⟨some ⟨0, 7, 1, 2, 3, 1, 1, ⟨10, 20, 100, 40, 50, 1000⟩⟩, some false, some false,
              none⟩ 7).effects)
    ∧ (FusionPlusEscrow.withdraw ⟨1050, 0, fun _ => false, fun s => s⟩
        ⟨some ⟨0, 7, 1, 2, 3, 1, 1, ⟨10, 20, 100, 40, 50, 1000⟩⟩, some false, some false, none⟩
        7).out = .trap (.auth 2) := by decide

/-- Claim C2 amended: for an initialized, non-terminal escrow, `withdraw`
succeeds iff the taker (counterparty) authorized the call AND the keccak256
of the secret equals the hash lock AND the ledger time lies in
`[deployed_at + withdrawal, deployed_at + cancellation)`.  An unauthorized
call aborts with a host authorization trap (not `Error::Unauthorized`); a
wrong secret fails with `InvalidSecret` — the secret is checked BEFORE the
window, so a wrong secret outside the window also yields `InvalidSecret` —
and a correct secret outside the window fails with `InvalidTime`.  On
success the escrow sets `withdrawn = true`, stores the revealed secret, and
transfers the locked amount to the maker; the safety-deposit helper
`transfer_native` is a placeholder, so no transfer to the counterparty is
performed. -/
theorem c2_withdraw_amended (env : FusionPlusEscrow.Env)
    (st : FusionPlusEscrow.EscrowState) (secret : B32)
    (imm : FusionPlusEscrow.Immutables) (h : st.immutables = some imm)
    (hw : FusionPlusEscrow.is_withdrawn_internal st = false)
    (hc : FusionPlusEscrow.is_cancelled_internal st = false) :
    ((FusionPlusEscrow.withdraw env st secret).out = .ok () ↔
      env.auths imm.taker = true ∧ env.keccak secret = imm.hash_lock
      ∧ imm.timelocks.deployed_at + imm.timelocks.src_withdrawal ≤ env.timestamp
      ∧ env.timestamp < imm.timelocks.deployed_at + imm.timelocks.src_cancellation)
    ∧ (env.auths imm.taker = false →
        (FusionPlusEscrow.withdraw env st secret).out = .trap (.auth imm.taker))
    ∧ (env.auths imm.taker = true → env.keccak secret ≠ imm.hash_lock →
        (FusionPlusEscrow.withdraw env st secret).out = .err .InvalidSecret)
    ∧ (env.auths imm.taker = true → env.keccak secret = imm.hash_lock →
        (env.timestamp < imm.timelocks.deployed_at + imm.timelocks.src_withdrawal
          ∨ imm.timelocks.deployed_at + imm.timelocks.src_cancellation ≤ env.timestamp) →
        (FusionPlusEscrow.withdraw env st secret).out = .err .InvalidTime)
    ∧ ((FusionPlusEscrow.withdraw env st secret).out = .ok () →
        (FusionPlusEscrow.withdraw env st secret).state
          = { st with withdrawn := some true, revealed_secret := some secret }
        ∧ (FusionPlusEscrow.withdraw env st secret).effects
          = [.tokenTransfer imm.token env.contract_address imm.maker imm.amount,
             .withdrawal ⟨imm.hash_lock, secret, imm.taker, false⟩]) := by
  refine ⟨?_, ?_, ?_, ?_, fun hok => FusionPlusEscrow.withdraw_ok_dest env st secret imm h hok⟩
  · rw [FusionPlusEscrow.withdraw_ok_iff env st secret imm h]
    simp [hw, hc]
  · intro ha
    exact FusionPlusEscrow.withdraw_trap_of_no_auth env st secret imm h ha
  · intro ha hsec
    exact (FusionPlusEscrow.withdraw_err_cases env st secret imm h ha).2.2.1 hw hc hsec
  · intro ha hsec ht
    exact (FusionPlusEscrow.withdraw_err_cases env st secret imm h ha).2.2.2 hw hc hsec ht

/-- Witness for the amended C2: the concrete escrow of the counterexample,
exercising the success case, the wrong-secret case, the out-of-window case,
and the unauthorized trap. -/
theorem c2_withdraw_amended_witness :
    ((FusionPlusEscrow.withdraw ⟨1050, 0, fun _ => true, fun s => s⟩
        ⟨some ⟨0, 7, 1, 2, 3, 1, 1, ⟨10, 20, 100, 40, 50, 1000⟩⟩, some false, some false, none⟩
        7).out = .ok () ↔
      ((fun (_ : Addr) => true) 2 = true ∧ (7 : B32) = 7
        ∧ (1000 : Nat) + 20 ≤ 1050 ∧ (1050 : Nat) < 1000 + 100))
    ∧ (FusionPlusEscrow.withdraw ⟨1050, 0, fun _ => false, fun s => s⟩
        ⟨some ⟨0, 7, 1, 2, 3, 1, 1, ⟨10, 20, 100, 40, 50, 1000⟩⟩, some false, some false, none⟩
        7).out = .trap (.auth 2)
    ∧ (FusionPlusEscrow.withdraw ⟨1050, 0, fun _ => true, fun s => s⟩
        ⟨some ⟨0, 7, 1, 2, 3, 1, 1, ⟨10, 20, 100, 40, 50, 1000⟩⟩, some false, some false, none⟩
        8).out = .err .InvalidSecret
    ∧ (FusionPlusEscrow.withdraw ⟨1005, 0, fun _ => true, fun s => s⟩
        ⟨some ⟨0, 7, 1, 2, 3, 1, 1, ⟨10, 20, 100, 40, 50, 1000⟩⟩, some false, some false, none⟩
        7).out = .err .InvalidTime
    ∧ (FusionPlusEscrow.withdraw ⟨1050, 0, fun _ => true, fun s => s⟩
        ⟨some ⟨0, 7, 1, 2, 3, 1, 1, ⟨10, 20, 100, 40, 50, 1000⟩⟩, some false, some false, none⟩
        7).state
      = ⟨some ⟨0, 7, 1, 2, 3, 1, 1, ⟨10, 20, 100, 40, 50, 1000⟩⟩, some true, some false,
          some 7⟩ := by
  have h1 := c2_withdraw_amended ⟨1050, 0, fun _ => true, fun s => s⟩
    ⟨some ⟨0, 7, 1, 2, 3, 1, 1, ⟨10, 20, 100, 40, 50, 1000⟩⟩, some false, some false, none⟩
    7 ⟨0, 7, 1, 2, 3, 1, 1, ⟨10, 20, 100, 40, 50, 1000⟩⟩ rfl (by decide) (by decide)
  have h2 := c2_withdraw_amended ⟨1050, 0, fun _ => false, fun s => s⟩
    ⟨some ⟨0, 7, 1, 2, 3, 1, 1, ⟨10, 20, 100, 40, 50, 1000⟩⟩, some false, some false, none⟩
    7 ⟨0, 7, 1, 2, 3, 1, 1, ⟨10, 20, 100, 40, 50, 1000⟩⟩ rfl (by decide) (by decide)
  have h3 := c2_withdraw_amended ⟨1050, 0, fun _ => true, fun s => s⟩
    ⟨some ⟨0, 7, 1, 2, 3, 1, 1, ⟨10, 20, 100, 40, 50, 1000⟩⟩, some false, some false, none⟩
    8 ⟨0, 7, 1, 2, 3, 1, 1, ⟨10, 20, 100, 40, 50, 1000⟩⟩ rfl (by decide) (by decide)
  have h4 := c2_withdraw_amended ⟨1005, 0, fun _ => true, fun s => s⟩
    ⟨some ⟨0, 7, 1, 2, 3, 1, 1, ⟨10, 20, 100, 40, 50, 1000⟩⟩, some false, some false, none⟩
    7 ⟨0, 7, 1, 2, 3, 1, 1, ⟨10, 20, 100, 40, 50, 1000⟩⟩ rfl (by decide) (by decide)
  refine ⟨h1.1, h2.2.1 (by decide), h3.2.2.1 (by decide) (by decide),
    h4.2.2.2.1 (by decide) (by decide) (by decide), ?_⟩
  exact (h1.2.2.2.2 (by decide)).1

/-- Claim C3 counterexample: on an initialized, non-terminal escrow (maker 1,
taker 2, token 3, amount 1, safety deposit 1, hash_lock 7, deployed at 1000,
withdrawal delay 20, cancellation delay 10000; identity keccak) a public
withdrawal by caller 9 with the correct secret at time 5000 succeeds, and
its effects are exactly the token transfer of the locked amount to the maker
and the withdrawal event: the safety deposit is NOT transferred to the
caller (`transfer_native` is a placeholder that moves nothing), contradicting
the claim's success effects.  Also the window lower bound is the hard-coded
`withdrawal + 3600` grace boundary, not a configured public-withdrawal
delay: at time 1030 the same call fails with `InvalidTime` even though it is
past the private withdrawal boundary. -/
theorem c3_counterexample :
    ((FusionPlusEscrow.public_withdraw ⟨5000, 0, fun _ => true, fun s => s⟩
        ⟨some ⟨0, 7, 1, 2, 3, 1, 1, ⟨10, 20, 10000, 40, 50, 1000⟩⟩, some false, some false, none⟩
        7 9).out = .ok ()
      ∧ (FusionPlusEscrow.public_withdraw ⟨5000, 0, fun _ => true, fun s => s⟩
        ⟨some ⟨0, 7, 1, 2, 3, 1, 1, ⟨10, 20, 10000, 40, 50, 1000⟩⟩, some false, some false, none⟩
        7 9).effects = [.tokenTransfer 3 0 1 1, .withdrawal ⟨7, 7, 9, true⟩]
      ∧ FusionPlusEscrow.Effect.nativeTransfer 9 1 ∉
          (FusionPlusEscrow.public_withdraw ⟨5000, 0, fun _ => true, fun s => s⟩
            ⟨some ⟨0, 7, 1, 2, 3, 1, 1, ⟨10, 20, 10000, 40, 50, 1000⟩⟩, some false, some false,
              none⟩ 7 9).effects)
    ∧ (FusionPlusEscrow.public_withdraw ⟨1030, 0, fun _ => true, fun s => s⟩
        ⟨some ⟨0, 7, 1, 2, 3, 1, 1, ⟨10, 20, 10000, 40, 50, 1000⟩⟩, some false, some false, none⟩
        7 9).out = .err .InvalidTime := by decide

/-- Claim C3 amended: for an initialized, non-terminal escrow and any
authorized caller supplying the correct secret, `public_withdraw` succeeds
iff the ledger time lies in the half-open interval
`[deployed_at + withdrawal + 3600, deployed_at + cancellation)` — the lower
boundary is the private withdrawal delay plus a hard-coded 3600-second grace
period, not a configured public-withdrawal delay — failing with
`InvalidTime` outside it; on success the locked amount is transferred to the
maker and the withdrawal event names the caller, but the safety deposit is
NOT transferred (to the caller or anyone): `transfer_native` is a
placeholder performing no transfer. -/
theorem c3_public_withdraw_amended (env : FusionPlusEscrow.Env)
    (st : FusionPlusEscrow.EscrowState) (secret : B32) (caller : Addr)
    (imm : FusionPlusEscrow.Immutables) (h : st.immutables = some imm)
    (hauth : env.auths caller = true)
    (hw : FusionPlusEscrow.is_withdrawn_internal st = false)
    (hc : FusionPlusEscrow.is_cancelled_internal st = false)
    (hsec : env.keccak secret = imm.hash_lock) :
    ((FusionPlusEscrow.public_withdraw env st secret caller).out = .ok () ↔
      imm.timelocks.deployed_at + imm.timelocks.src_withdrawal + 3600 ≤ env.timestamp
      ∧ env.timestamp < imm.timelocks.deployed_at + imm.timelocks.src_cancellation)
    ∧ ((env.timestamp < imm.timelocks.deployed_at + imm.timelocks.src_withdrawal + 3600
        ∨ imm.timelocks.deployed_at + imm.timelocks.src_cancellation ≤ env.timestamp) →
      (FusionPlusEscrow.public_withdraw env st secret caller).out = .err .InvalidTime)
    ∧ ((FusionPlusEscrow.public_withdraw env st secret caller).out = .ok () →
      (FusionPlusEscrow.public_withdraw env st secret caller).state
        = { st with withdrawn := some true, revealed_secret := some secret }
      ∧ (FusionPlusEscrow.public_withdraw env st secret caller).effects
        = [.tokenTransfer imm.token env.contract_address imm.maker imm.amount,
           .withdrawal ⟨imm.hash_lock, secret, caller, true⟩]) := by
  refine ⟨?_, ?_,
    fun hok => FusionPlusEscrow.public_withdraw_ok_dest env st secret caller imm h hok⟩
  · rw [FusionPlusEscrow.public_withdraw_ok_iff env st secret caller imm h]
    simp [hauth, hw, hc, hsec]
  · intro ht
    exact (FusionPlusEscrow.public_withdraw_err_cases env st secret caller imm h hauth).2.2
      hw hc hsec ht

/-- Witness for the amended C3: the concrete escrow of the counterexample,
exercising the success case with its effect list and the early
(`InvalidTime`) case. -/
theorem c3_public_withdraw_amended_witness :
    ((FusionPlusEscrow.public_withdraw ⟨5000, 0, fun _ => true, fun s => s⟩
        ⟨some ⟨0, 7, 1, 2, 3, 1, 1, ⟨10, 20, 10000, 40, 50, 1000⟩⟩, some false, some false, none⟩
        7 9).out = .ok () ↔
      ((1000 : Nat) + 20 + 3600 ≤ 5000 ∧ (5000 : Nat) < 1000 + 10000))
    ∧ (FusionPlusEscrow.public_withdraw ⟨1030, 0, fun _ => true, fun s => s⟩
        ⟨some ⟨0, 7, 1, 2, 3, 1, 1, ⟨10, 20, 10000, 40, 50, 1000⟩⟩, some false, some false, none⟩
        7 9).out = .err .InvalidTime
    ∧ (FusionPlusEscrow.public_withdraw ⟨5000, 0, fun _ => true, fun s => s⟩
        ⟨some ⟨0, 7, 1, 2, 3, 1, 1, ⟨10, 20, 10000, 40, 50, 1000⟩⟩, some false, some false, none⟩
        7 9).effects = [.tokenTransfer 3 0 1 1, .withdrawal ⟨7, 7, 9, true⟩] := by
  have h1 := c3_public_withdraw_amended ⟨5000, 0, fun _ => true, fun s => s⟩
    ⟨some ⟨0, 7, 1, 2, 3, 1, 1, ⟨10, 20, 10000, 40, 50, 1000⟩⟩, some false, some false, none⟩
    7 9 ⟨0, 7, 1, 2, 3, 1, 1, ⟨10, 20, 10000, 40, 50, 1000⟩⟩ rfl (by decide) (by decide)
    (by decide) (by decide)
  have h2 := c3_public_withdraw_amended ⟨1030, 0, fun _ => true, fun s => s⟩
    ⟨some ⟨0, 7, 1, 2, 3, 1, 1, ⟨10, 20, 10000, 40, 50, 1000⟩⟩, some false, some false, none⟩
    7 9 ⟨0, 7, 1, 2, 3, 1, 1, ⟨10, 20, 10000, 40, 50, 1000⟩⟩ rfl (by decide) (by decide)
    (by decide) (by decide)
  exact ⟨h1.1, h2.2.1 (by decide), (h1.2.2 (by decide)).2⟩

/-- Claim C4 (confirmed): in every reachable state of one escrow instance the
flags `withdrawn` and `cancelled` are never both true; along every step each
flag, once true, stays true; and after a successful `withdraw` or
`public_withdraw` every further `withdraw`, `public_withdraw`, or `cancel`
(by an authorized caller) on the same instance fails with
`AlreadyWithdrawn`, while after a successful `cancel` every further such
operation fails with `AlreadyCancelled`. -/
theorem c4_terminal_flags_exclusive_and_sticky :
    (∀ st : FusionPlusEscrow.EscrowState, FusionPlusEscrow.Reachable st →
      ¬(FusionPlusEscrow.is_withdrawn_internal st = true
        ∧ FusionPlusEscrow.is_cancelled_internal st = true))
    ∧ (∀ st st2 : FusionPlusEscrow.EscrowState, FusionPlusEscrow.Reachable st →
        FusionPlusEscrow.EStep st st2 →
        (FusionPlusEscrow.is_withdrawn_internal st = true →
          FusionPlusEscrow.is_withdrawn_internal st2 = true)
        ∧ (FusionPlusEscrow.is_cancelled_internal st = true →
          FusionPlusEscrow.is_cancelled_internal st2 = true))
    ∧ (∀ (env env2 : FusionPlusEscrow.Env) (st : FusionPlusEscrow.EscrowState)
        (secret secret2 : B32) (caller : Addr) (imm : FusionPlusEscrow.Immutables),
        st.immutables = some imm →
        (FusionPlusEscrow.withdraw env st secret).out = .ok () →
        (env2.auths imm.taker = true →
          (FusionPlusEscrow.withdraw env2 (FusionPlusEscrow.withdraw env st secret).state
            secret2).out = .err .AlreadyWithdrawn)
        ∧ (env2.auths caller = true →
          (FusionPlusEscrow.public_withdraw env2 (FusionPlusEscrow.withdraw env st secret).state
            secret2 caller).out = .err .AlreadyWithdrawn)
        ∧ (env2.auths caller = true →
          (FusionPlusEscrow.cancel env2 (FusionPlusEscrow.withdraw env st secret).state
            caller).out = .err .AlreadyWithdrawn))
    ∧ (∀ (env env2 : FusionPlusEscrow.Env) (st : FusionPlusEscrow.EscrowState)
        (secret secret2 : B32) (caller caller2 : Addr) (imm : FusionPlusEscrow.Immutables),
        st.immutables = some imm →
        (FusionPlusEscrow.public_withdraw env st secret caller).out = .ok () →
        (env2.auths imm.taker = true →
          (FusionPlusEscrow.withdraw env2
            (FusionPlusEscrow.public_withdraw env st secret caller).state
            secret2).out = .err .AlreadyWithdrawn)
        ∧ (env2.auths caller2 = true →
          (FusionPlusEscrow.public_withdraw env2
            (FusionPlusEscrow.public_withdraw env st secret caller).state
            secret2 caller2).out = .err .AlreadyWithdrawn)
        ∧ (env2.auths caller2 = true →
          (FusionPlusEscrow.cancel env2
            (FusionPlusEscrow.public_withdraw env st secret caller).state
            caller2).out = .err .AlreadyWithdrawn))
    ∧ (∀ (env env2 : FusionPlusEscrow.Env) (st : FusionPlusEscrow.EscrowState)
        (secret : B32) (caller caller2 : Addr) (imm : FusionPlusEscrow.Immutables),
        st.immutables = some imm →
        (FusionPlusEscrow.cancel env st caller).out = .ok () →
        (env2.auths imm.taker = true →
          (FusionPlusEscrow.withdraw env2 (FusionPlusEscrow.cancel env st caller).state
            secret).out = .err .AlreadyCancelled)
        ∧ (env2.auths caller2 = true →
          (FusionPlusEscrow.public_withdraw env2 (FusionPlusEscrow.cancel env st caller).state
            secret caller2).out = .err .AlreadyCancelled)
        ∧ (env2.auths caller2 = true →
          (FusionPlusEscrow.cancel env2 (FusionPlusEscrow.cancel env st caller).state
            caller2).out = .err .AlreadyCancelled)) := by
  refine ⟨fun st hr => (FusionPlusEscrow.reachable_inv st hr).1,
    fun st st2 hr hstep =>
      FusionPlusEscrow.estep_mono st st2 (FusionPlusEscrow.reachable_inv st hr) hstep,
    ?_, ?_, ?_⟩
  · intro env env2 st secret secret2 caller imm him hok
    have hst := (FusionPlusEscrow.withdraw_ok_dest env st secret imm him hok).1
    have him2 : (FusionPlusEscrow.withdraw env st secret).state.immutables = some imm := by
      rw [hst]; exact him
    have hwd2 : FusionPlusEscrow.is_withdrawn_internal
        (FusionPlusEscrow.withdraw env st secret).state = true := by
      rw [hst]; simp [FusionPlusEscrow.is_withdrawn_internal]
    exact ⟨fun ha =>
        (FusionPlusEscrow.withdraw_err_cases env2 _ secret2 imm him2 ha).1 hwd2,
      fun ha =>
        (FusionPlusEscrow.public_withdraw_err_cases env2 _ secret2 caller imm him2 ha).1 hwd2,
      fun ha => (FusionPlusEscrow.cancel_err_cases env2 _ caller imm him2 ha).1 hwd2⟩
  · intro env env2 st secret secret2 caller caller2 imm him hok
    have hst := (FusionPlusEscrow.public_withdraw_ok_dest env st secret caller imm him hok).1
    have him2 : (FusionPlusEscrow.public_withdraw env st secret caller).state.immutables
        = some imm := by
      rw [hst]; exact him
    have hwd2 : FusionPlusEscrow.is_withdrawn_internal
        (FusionPlusEscrow.public_withdraw env st secret caller).state = true := by
      rw [hst]; simp [FusionPlusEscrow.is_withdrawn_internal]
    exact ⟨fun ha =>
        (FusionPlusEscrow.withdraw_err_cases env2 _ secret2 imm him2 ha).1 hwd2,
      fun ha =>
        (FusionPlusEscrow.public_withdraw_err_cases env2 _ secret2 caller2 imm him2 ha).1 hwd2,
      fun ha => (FusionPlusEscrow.cancel_err_cases env2 _ caller2 imm him2 ha).1 hwd2⟩
  · intro env env2 st secret caller caller2 imm him hok
    have hcond := (FusionPlusEscrow.cancel_ok_iff env st caller imm him).mp hok
    have hst := (FusionPlusEscrow.cancel_ok_dest env st caller imm him hok).1
    have him2 : (FusionPlusEscrow.cancel env st caller).state.immutables = some imm := by
      rw [hst]; exact him
    have hwd2 : FusionPlusEscrow.is_withdrawn_internal
        (FusionPlusEscrow.cancel env st caller).state = false := by
      rw [hst]
      simpa [FusionPlusEscrow.is_withdrawn_internal] using hcond.2.1
    have hcc2 : FusionPlusEscrow.is_cancelled_internal
        (FusionPlusEscrow.cancel env st caller).state = true := by
      rw [hst]; simp [FusionPlusEscrow.is_cancelled_internal]
    exact ⟨fun ha =>
        (FusionPlusEscrow.withdraw_err_cases env2 _ secret imm him2 ha).2.1 hwd2 hcc2,
      fun ha =>
        (FusionPlusEscrow.public_withdraw_err_cases env2 _ secret caller2 imm him2 ha).2.1
          hwd2 hcc2,
      fun ha => (FusionPlusEscrow.cancel_err_cases env2 _ caller2 imm him2 ha).2 hwd2 hcc2⟩

/-- Witness for C4: the empty state is reachable and satisfies mutual
exclusion; a deposit step from it preserves the flags; after a concrete
successful `withdraw` (resp. `public_withdraw`, `cancel`) each follow-up
operation fails with `AlreadyWithdrawn` (resp. `AlreadyWithdrawn`,
`AlreadyCancelled`). -/
theorem c4_terminal_flags_exclusive_and_sticky_witness :
    (¬(FusionPlusEscrow.is_withdrawn_internal FusionPlusEscrow.emptyState = true
        ∧ FusionPlusEscrow.is_cancelled_internal FusionPlusEscrow.emptyState = true))
    ∧ ((FusionPlusEscrow.is_withdrawn_internal FusionPlusEscrow.emptyState = true →
        FusionPlusEscrow.is_withdrawn_internal
          (FusionPlusEscrow.deposit ⟨1050, 0, fun _ => true, fun s => s⟩
            FusionPlusEscrow.emptyState).state = true)
      ∧ (FusionPlusEscrow.is_cancelled_internal FusionPlusEscrow.emptyState = true →
        FusionPlusEscrow.is_cancelled_internal
          (FusionPlusEscrow.deposit ⟨1050, 0, fun _ => true, fun s => s⟩
            FusionPlusEscrow.emptyState).state = true))
    ∧ ((FusionPlusEscrow.withdraw ⟨1050, 0, fun _ => true, fun s => s⟩
          (FusionPlusEscrow.withdraw ⟨1050, 0, fun _ => true, fun s => s⟩
            ⟨some ⟨0, 7, 1, 2, 3, 1, 1, ⟨10, 20, 100, 40, 50, 1000⟩⟩, some false, some false,
              none⟩ 7).state 7).out = .err .AlreadyWithdrawn
      ∧ (FusionPlusEscrow.public_withdraw ⟨1050, 0, fun _ => true, fun s => s⟩
          (FusionPlusEscrow.withdraw ⟨1050, 0, fun _ => true, fun s => s⟩
            ⟨some ⟨0, 7, 1, 2, 3, 1, 1, ⟨10, 20, 100, 40, 50, 1000⟩⟩, some false, some false,
              none⟩ 7).state 7 9).out = .err .AlreadyWithdrawn
      ∧ (FusionPlusEscrow.cancel ⟨1050, 0, fun _ => true, fun s => s⟩
          (FusionPlusEscrow.withdraw ⟨1050, 0, fun _ => true, fun s => s⟩
            ⟨some ⟨0, 7, 1, 2, 3, 1, 1, ⟨10, 20, 100, 40, 50, 1000⟩⟩, some false, some false,
              none⟩ 7).state 9).out = .err .AlreadyWithdrawn)
    ∧ ((FusionPlusEscrow.withdraw ⟨5000, 0, fun _ => true, fun s => s⟩
          (FusionPlusEscrow.public_withdraw ⟨5000, 0, fun _ => true, fun s => s⟩
            ⟨some ⟨0, 7, 1, 2, 3, 1, 1, ⟨10, 20, 10000, 40, 50, 1000⟩⟩, some false, some false,
              none⟩ 7 9).state 7).out = .err .AlreadyWithdrawn
      ∧ (FusionPlusEscrow.public_withdraw ⟨5000, 0, fun _ => true, fun s => s⟩
          (FusionPlusEscrow.public_withdraw ⟨5000, 0, fun _ => true, fun s => s⟩
            ⟨some ⟨0, 7, 1, 2, 3, 1, 1, ⟨10, 20, 10000, 40, 50, 1000⟩⟩, some false, some false,
              none⟩ 7 9).state 7 9).out = .err .AlreadyWithdrawn
      ∧ (FusionPlusEscrow.cancel ⟨5000, 0, fun _ => true, fun s => s⟩
          (FusionPlusEscrow.public_withdraw ⟨5000, 0, fun _ => true, fun s => s⟩
            ⟨some ⟨0, 7, 1, 2, 3, 1, 1, ⟨10, 20, 10000, 40, 50, 1000⟩⟩, some false, some false,
              none⟩ 7 9).state 9).out = .err .AlreadyWithdrawn)
    ∧ ((FusionPlusEscrow.withdraw ⟨1200, 0, fun _ => true, fun s => s⟩
          (FusionPlusEscrow.cancel ⟨1200, 0, fun _ => true, fun s => s⟩
            ⟨some ⟨0, 7, 1, 2, 3, 1, 1, ⟨10, 20, 100, 40, 50, 1000⟩⟩, some false, some false,
              none⟩ 1).state 7).out = .err .AlreadyCancelled
      ∧ (FusionPlusEscrow.public_withdraw ⟨1200, 0, fun _ => true, fun s => s⟩
          (FusionPlusEscrow.cancel ⟨1200, 0, fun _ => true, fun s => s⟩
            ⟨some ⟨0, 7, 1, 2, 3, 1, 1, ⟨10, 20, 100, 40, 50, 1000⟩⟩, some false, some false,
              none⟩ 1).state 7 9).out = .err .AlreadyCancelled
      ∧ (FusionPlusEscrow.cancel ⟨1200, 0, fun _ => true, fun s => s⟩
          (FusionPlusEscrow.cancel ⟨1200, 0, fun _ => true, fun s => s⟩
            ⟨some ⟨0, 7, 1, 2, 3, 1, 1, ⟨10, 20, 100, 40, 50, 1000⟩⟩, some false, some false,
              none⟩ 1).state 9).out = .err .AlreadyCancelled) := by
  have h := c4_terminal_flags_exclusive_and_sticky
  have h3 := h.2.2.1 ⟨1050, 0, fun _ => true, fun s => s⟩ ⟨1050, 0, fun _ => true, fun s => s⟩
    ⟨some ⟨0, 7, 1, 2, 3, 1, 1, ⟨10, 20, 100, 40, 50, 1000⟩⟩, some false, some false, none⟩
    7 7 9 ⟨0, 7, 1, 2, 3, 1, 1, ⟨10, 20, 100, 40, 50, 1000⟩⟩ rfl (by decide)
  have h4 := h.2.2.2.1 ⟨5000, 0, fun _ => true, fun s => s⟩ ⟨5000, 0, fun _ => true, fun s => s⟩
    ⟨some ⟨0, 7, 1, 2, 3, 1, 1, ⟨10, 20, 10000, 40, 50, 1000⟩⟩, some false, some false, none⟩
    7 7 9 9 ⟨0, 7, 1, 2, 3, 1, 1, ⟨10, 20, 10000, 40, 50, 1000⟩⟩ rfl (by decide)
  have h5 := h.2.2.2.2 ⟨1200, 0, fun _ => true, fun s => s⟩ ⟨1200, 0, fun _ => true, fun s => s⟩
    ⟨some ⟨0, 7, 1, 2, 3, 1, 1, ⟨10, 20, 100, 40, 50, 1000⟩⟩, some false, some false, none⟩
    7 1 9 ⟨0, 7, 1, 2, 3, 1, 1, ⟨10, 20, 100, 40, 50, 1000⟩⟩ rfl (by decide)
  exact ⟨h.1 FusionPlusEscrow.emptyState FusionPlusEscrow.Reachable.empty,
    h.2.1 FusionPlusEscrow.emptyState
      (FusionPlusEscrow.deposit ⟨1050, 0, fun _ => true, fun s => s⟩
        FusionPlusEscrow.emptyState).state
      FusionPlusEscrow.Reachable.empty
      (FusionPlusEscrow.EStep.depositStep FusionPlusEscrow.emptyState
        ⟨1050, 0, fun _ => true, fun s => s⟩),
    ⟨h3.1 rfl, h3.2.1 rfl, h3.2.2 rfl⟩,
    ⟨h4.1 rfl, h4.2.1 rfl, h4.2.2 rfl⟩,
    ⟨h5.1 rfl, h5.2.1 rfl, h5.2.2 rfl⟩⟩
